import Mathlib

/-!
Verification of the narrative-genesis pipeline (repository `pillar1`).

This file gives a shallow embedding of the two code paths that the
specification's claims are about:

* the LLM-response recovery pipeline of `process_narrative.py`
  (`_call_openrouter_for_pillars`, lines 300-357): Markdown-fence stripping,
  the trailing-comma regex substitution, strict JSON parsing (`json.loads`),
  the `json_repair` fallbacks, the brace-substring extraction, and the final
  object/keys post-condition checks;

* the Pydantic schema validation of `schemas/narrative_genesis_schema.py`
  together with the report construction of `processors/validator.py`.

Python strings are modelled as `List Char` in the parsing layer (where
character-level manipulation matters) and as `String` in the schema layer.
`json.loads` is modelled by an executable tokenizer + recursive-descent
parser over a `Json` value type.  The external `json_repair.loads` library
is not part of the repository; it is treated as an abstract parameter
(`jrepair`) of the recovery function.
-/

namespace Pillar1

/-! ### Character classes

`isJsonWs` is the whitespace accepted by `json.loads` between tokens.
`isPyWs` models the characters removed by Python's `str.strip()` (the
characters for which `str.isspace()` holds); it is also used as the model of
the regex class `\s` for `str` patterns, which matches the same set.
-/

def isJsonWs (c : Char) : Bool :=
  c = ' ' || c = '\t' || c = '\n' || c = '\r'

def pyWsChars : List Char :=
  [' ', '\t', '\n', '\r', '\x0b', '\x0c',
   '\x1c', '\x1d', '\x1e', '\x1f', '\x85', '\xa0',
   '\u2000', '\u2001', '\u2002', '\u2003', '\u2004', '\u2005', '\u2006', '\u2007', '\u2008', '\u2009', '\u200a', '\u2028', '\u2029', '\u202f', '\u205f', '\u3000', '\u1680']

def isPyWs (c : Char) : Bool := pyWsChars.contains c

/-- Python `str.lstrip()` on a character list. -/
def lstripPy (l : List Char) : List Char := l.dropWhile isPyWs

/-- Python `str.rstrip()` on a character list. -/
def rstripPy (l : List Char) : List Char := (l.reverse.dropWhile isPyWs).reverse

/-- Python `str.strip()` on a character list. -/
def pystrip (l : List Char) : List Char := lstripPy (rstripPy l)

/-! ### The trailing-comma regex

`process_narrative.py` line 325 runs `re.sub(r',(\s*[}\]])', r'\1', raw)`:
every comma directly followed by optional whitespace and a closing brace or
bracket is deleted (the whitespace and the closing character are kept).
`removeTrailingCommas` performs the same rewrite.  Since the replacement
text contains no comma, deleting the comma and rescanning from the next
character yields the same output as `re.sub`'s continue-after-the-match
behaviour. -/

def isCloser (c : Char) : Bool := c = '}' || c = ']'

def removeTrailingCommas : List Char → List Char
  | [] => []
  | c :: rest =>
    if c = ',' then
      match rest.dropWhile isPyWs with
      | b :: _ => if isCloser b then removeTrailingCommas rest
                  else ',' :: removeTrailingCommas rest
      | [] => ',' :: removeTrailingCommas rest
    else c :: removeTrailingCommas rest

/-- Holds (`= true`) iff the list contains an occurrence of the pattern
`,(\s*[}\]])`, i.e. a comma followed by optional whitespace and a closing
brace/bracket. -/
def hasCommaPat : List Char → Bool
  | [] => false
  | c :: rest =>
    (c = ',' && (match rest.dropWhile isPyWs with
                 | b :: _ => isCloser b
                 | [] => false)) || hasCommaPat rest


/-! ### JSON values and strict parsing (model of `json.loads`)

Numeric literals are kept in their source form (the distinction between
Python `int` and `float` results, and float rounding, is not needed by any
claim).  Objects are association lists in source order.  String escapes are
decoded; a `\uXXXX` escape becomes the character with that code point
(surrogate-pair combination is not modelled — no claim involves it). -/

inductive Json where
  | null
  | bool (b : Bool)
  | num (lit : List Char)
  | str (s : String)
  | arr (elems : List Json)
  | obj (fields : List (String × Json))

def Json.isObj : Json → Bool
  | .obj _ => true
  | _ => false

inductive Token where
  | lbrace | rbrace | lbrack | rbrack | comma | colon
  | str (s : String) | num (lit : List Char) | tru | fls | nul
deriving DecidableEq

def isHexDigit (c : Char) : Bool :=
  c.isDigit || ('a' ≤ c && c ≤ 'f') || ('A' ≤ c && c ≤ 'F')

def hexVal (c : Char) : Nat :=
  if c.isDigit then c.toNat - 48
  else if 'a' ≤ c && c ≤ 'f' then c.toNat - 87
  else c.toNat - 55

def simpleEscape : Char → Option Char
  | '"' => some '"'
  | '\\' => some '\\'
  | '/' => some '/'
  | 'b' => some '\x08'
  | 'f' => some '\x0c'
  | 'n' => some '\n'
  | 'r' => some '\r'
  | 't' => some '\t'
  | _ => none

/-- Prepend a decoded character to the content of a string-lexing result. -/
def consResult (c : Char) : Option (List Char × List Char) → Option (List Char × List Char)
  | some (s, r) => some (c :: s, r)
  | none => none

/-- Lex the body of a JSON string literal (the opening quote is already
consumed); returns the decoded content and the remaining input.  `json.loads`
is strict: raw control characters below 0x20 inside a string are an error.
An incomplete escape (`\` or `\u` with fewer than four hex digits before the
end) fails — as in `json.loads`, where the input then either ends inside the
string or supplies an invalid escape. -/
def lexString : List Char → Option (List Char × List Char)
  | [] => none
  | c :: rest =>
    if c = '"' then some ([], rest)
    else if c = '\\' then
      match rest with
      | [] => none
      | e :: rest2 =>
        if e = 'u' then
          match rest2 with
          | h1 :: h2 :: h3 :: h4 :: rest3 =>
            if isHexDigit h1 && isHexDigit h2 && isHexDigit h3 && isHexDigit h4 then
              consResult (Char.ofNat (((hexVal h1 * 16 + hexVal h2) * 16 + hexVal h3) * 16
                + hexVal h4)) (lexString rest3)
            else none
          | _ => none
        else
          match simpleEscape e with
          | some c2 => consResult c2 (lexString rest2)
          | none => none
    else if c.toNat < 32 then none
    else consResult c (lexString rest)

def isNumChar (c : Char) : Bool :=
  c.isDigit || c = '.' || c = 'e' || c = 'E' || c = '+' || c = '-'

def isNumStart (c : Char) : Bool := c.isDigit || c = '-'

/-- Integer part of the JSON number grammar: `0 | [1-9][0-9]*`. -/
def numIntPart : List Char → Option (List Char)
  | '0' :: r => some r
  | c :: r => if c.isDigit then some (r.dropWhile Char.isDigit) else none
  | [] => none

/-- Optional fraction part: `(\.[0-9]+)?`. -/
def numFracPart : List Char → Option (List Char)
  | '.' :: r =>
    match r with
    | c :: _ => if c.isDigit then some (r.dropWhile Char.isDigit) else none
    | [] => none
  | l => some l

/-- Optional exponent part: `([eE][+-]?[0-9]+)?`. -/
def numExpPart : List Char → Option (List Char)
  | c :: r =>
    if c = 'e' || c = 'E' then
      let r2 := match r with
        | s :: r2 => if s = '+' || s = '-' then r2 else s :: r2
        | [] => []
      match r2 with
      | d :: _ => if d.isDigit then some (r2.dropWhile Char.isDigit) else none
      | [] => none
    else some (c :: r)
  | [] => some []

/-- Checks that the lexeme matches the JSON number grammar
`-?(0|[1-9][0-9]*)(\.[0-9]+)?([eE][+-]?[0-9]+)?` exactly. -/
def validNum (l : List Char) : Bool :=
  let l1 := match l with
    | '-' :: r => r
    | _ => l
  match numIntPart l1 with
  | none => false
  | some r1 =>
    match numFracPart r1 with
    | none => false
    | some r2 =>
      match numExpPart r2 with
      | some [] => true
      | _ => false

/-- Consume an expected literal tail (`rue`, `alse`, `ull`); returns the
remaining input on a match. -/
def dropPre : List Char → List Char → Option (List Char)
  | [], l => some l
  | c :: cs, x :: l => if x = c then dropPre cs l else none
  | _ :: _, [] => none

/-- Continuation for the keyword tokens `true` / `false` / `null`: consume
the expected tail and emit the token.  The tokenizer one fuel level down is
passed in as `tk`. -/
def expectLit (tk : List Char → Option (List Token)) (cs : List Char) (tok : Token)
    (l : List Char) : Option (List Token) :=
  match dropPre cs l with
  | some r => (tk r).map (tok :: ·)
  | none => none

/-- One tokenizer step on head character `c`: emit a token (or fail) and
continue with the rest of the input through `tk`, the tokenizer one fuel
level down. -/
def tokStep (tk : List Char → Option (List Token)) (c : Char) (rest : List Char) :
    Option (List Token) :=
  if isJsonWs c then tk rest
  else if c = '{' then (tk rest).map (Token.lbrace :: ·)
  else if c = '}' then (tk rest).map (Token.rbrace :: ·)
  else if c = '[' then (tk rest).map (Token.lbrack :: ·)
  else if c = ']' then (tk rest).map (Token.rbrack :: ·)
  else if c = ',' then (tk rest).map (Token.comma :: ·)
  else if c = ':' then (tk rest).map (Token.colon :: ·)
  else if c = '"' then
    match lexString rest with
    | some (s, r) => (tk r).map (Token.str (String.mk s) :: ·)
    | none => none
  else if isNumStart c then
    if validNum (c :: rest.takeWhile isNumChar) then
      (tk (rest.dropWhile isNumChar)).map (Token.num (c :: rest.takeWhile isNumChar) :: ·)
    else none
  else if c = 't' then expectLit tk ['r', 'u', 'e'] Token.tru rest
  else if c = 'f' then expectLit tk ['a', 'l', 's', 'e'] Token.fls rest
  else if c = 'n' then expectLit tk ['u', 'l', 'l'] Token.nul rest
  else none

/-- Tokenizer for strict JSON.  The fuel argument only serves structural
termination; `tokenizeA` supplies an adequate amount (every step consumes at
least one character). -/
def tokenize : Nat → List Char → Option (List Token)
  | _, [] => some []
  | 0, _ :: _ => none
  | fuel + 1, c :: rest => tokStep (tokenize fuel) c rest

def tokenizeA (l : List Char) : Option (List Token) := tokenize l.length l

/-- Array tail parser: after the first element, expects `, value`* `]`.
`pv` is the value parser one fuel level down. -/
def parseArrTail (pv : List Token → Option (Json × List Token)) :
    Nat → Json → List Token → Option (List Json × List Token)
  | 0, _, _ => none
  | fuel + 1, v, ts =>
    match ts with
    | .comma :: ts2 =>
      match pv ts2 with
      | some (v2, ts3) =>
        match parseArrTail pv fuel v2 ts3 with
        | some (vs, r) => some (v :: vs, r)
        | none => none
      | none => none
    | .rbrack :: ts2 => some ([v], ts2)
    | _ => none

/-- Object tail parser: after the first member, expects `, "key" : value`* `}`. -/
def parseObjTail (pv : List Token → Option (Json × List Token)) :
    Nat → (String × Json) → List Token → Option (List (String × Json) × List Token)
  | 0, _, _ => none
  | fuel + 1, kv, ts =>
    match ts with
    | .comma :: .str k :: .colon :: ts2 =>
      match pv ts2 with
      | some (v2, ts3) =>
        match parseObjTail pv fuel (k, v2) ts3 with
        | some (kvs, r) => some (kv :: kvs, r)
        | none => none
      | none => none
    | .rbrace :: ts2 => some ([kv], ts2)
    | _ => none

/-- Recursive-descent value parser over the token stream. -/
def parseVal : Nat → List Token → Option (Json × List Token)
  | 0, _ => none
  | fuel + 1, ts =>
    match ts with
    | .str s :: r => some (.str s, r)
    | .num n :: r => some (.num n, r)
    | .tru :: r => some (.bool true, r)
    | .fls :: r => some (.bool false, r)
    | .nul :: r => some (.null, r)
    | .lbrack :: .rbrack :: r => some (.arr [], r)
    | .lbrack :: r =>
      match parseVal fuel r with
      | some (v, r2) =>
        match parseArrTail (parseVal fuel) (fuel + 1) v r2 with
        | some (vs, r3) => some (.arr vs, r3)
        | none => none
      | none => none
    | .lbrace :: .rbrace :: r => some (.obj [], r)
    | .lbrace :: .str k :: .colon :: r =>
      match parseVal fuel r with
      | some (v, r2) =>
        match parseObjTail (parseVal fuel) (fuel + 1) (k, v) r2 with
        | some (kvs, r3) => some (.obj kvs, r3)
        | none => none
      | none => none
    | _ => none

/-- Model of `json.loads`: tokenize, parse one value, require that the whole
input is consumed.  Returns `none` where `json.loads` raises
`json.JSONDecodeError`. -/
def parse (l : List Char) : Option Json :=
  match tokenizeA l with
  | some ts =>
    match parseVal (ts.length + 1) ts with
    | some (v, []) => some v
    | _ => none
  | none => none


/-! ### The recovery pipeline (`_call_openrouter_for_pillars`, lines 305-357)

The message `content` taken from the OpenRouter response is either an
already-parsed JSON object (`isinstance(content, dict)`) or a string.
Other Python runtime types (which would go through `str(content)`) are not
modelled; no claim involves them.  `json_repair.loads` is an external
library and is passed in as the abstract parameter `jrepair`; it may either
return a value or fail with an error message. -/

inductive RawContent where
  | dict (fields : List (String × Json))
  | text (s : List Char)

/-- The errors `RuntimeError` is raised with in lines 340-355, in structured
form.  `message` below renders the exact Python text. -/
inductive RecErr where
  | notObject
  | missingKey (k : String)
  | parseRepairFailed (firstErr lastErr : String)
deriving DecidableEq

def RecErr.message : RecErr → String
  | .notObject => "Parsed pillars response is not a JSON object."
  | .missingKey k => "Missing \x27" ++ k ++ "\x27 in pillars response."
  | .parseRepairFailed firstErr lastErr =>
    "Failed to parse/repair JSON from OpenRouter response. Original error: "
      ++ firstErr ++ "; repair error: " ++ lastErr

/-- Stand-in for the (position-dependent) `json.JSONDecodeError` text raised
by a failing `json.loads`; only its propagation matters to the claims. -/
def strictErrMsg : String := "JSONDecodeError"

def hasKey (fields : List (String × Json)) (k : String) : Bool :=
  fields.any (fun p => p.1 = k)

/-- Lines 350-356: the post-condition applied to the recovered value —
it must be a dict and contain the keys `pillar2`, `pillar3`, `pillar4`
(checked in this order). -/
def checkPillars (p : Json) : Except RecErr Json :=
  match p with
  | .obj fields =>
    if !hasKey fields "pillar2" then .error (.missingKey "pillar2")
    else if !hasKey fields "pillar3" then .error (.missingKey "pillar3")
    else if !hasKey fields "pillar4" then .error (.missingKey "pillar4")
    else .ok (.obj fields)
  | _ => .error .notObject

/-- Python `raw.endswith("```")`. -/
def endsWithFence (l : List Char) : Bool :=
  match l.reverse with
  | '`' :: '`' :: '`' :: _ => true
  | _ => false

/-- Python `raw[:-3]`. -/
def dropLast3 (l : List Char) : List Char := (l.reverse.drop 3).reverse

/-- Python `raw[first_newline + 1:]` when a newline exists, else `raw`
(the case `raw.find("\n") == -1`). -/
def afterFirstNewline (l : List Char) : List Char :=
  if l.contains '\n' then (l.dropWhile (fun c => c != '\n')).tail else l

/-- Lines 313-320: strip a leading Markdown code fence (the whole first line)
and, if present, a trailing ``` fence followed by another `strip()`. -/
def fenceStrip (raw : List Char) : List Char :=
  match raw with
  | '`' :: '`' :: '`' :: _ =>
    let raw1 := afterFirstNewline raw
    if endsWithFence raw1 then pystrip (dropLast3 raw1) else raw1
  | _ => raw

/-- Lines 310-325: `str(content).strip()`, fence stripping, then the
trailing-comma substitution.  This is the text handed to `json.loads`. -/
def preprocess (s : List Char) : List Char :=
  removeTrailingCommas (fenceStrip (pystrip s))

/-- Lines 335-338: `re.search(r"\{[\s\S]*\}", raw)` — greedy, so the match
spans from the first `{` to the last `}` (if that comes later). -/
def extractBraces (l : List Char) : Option (List Char) :=
  match l.dropWhile (fun c => c != '{') with
  | '{' :: tail =>
    if tail.contains '}' then
      some ('{' :: (tail.reverse.dropWhile (fun c => c != '}')).reverse)
    else none
  | _ => none

/-- Lines 327-348: strict parse, then `json_repair` on the whole text, then
`json_repair` on the first brace-delimited substring; exhaustion raises a
`RuntimeError` carrying the original strict-parse error and the error of the
whole-text repair attempt. -/
def parseStages (jrepair : List Char → Except String Json) (raw : List Char) :
    Except RecErr Json :=
  match parse raw with
  | some p => .ok p
  | none =>
    match jrepair raw with
    | .ok p => .ok p
    | .error repairErr =>
      match extractBraces raw with
      | some sub =>
        match jrepair sub with
        | .ok p => .ok p
        | .error _ => .error (.parseRepairFailed strictErrMsg repairErr)
      | none => .error (.parseRepairFailed strictErrMsg repairErr)

/-- The parse/repair/check portion of `_call_openrouter_for_pillars`
(lines 305-357): from the response `content` to the validated pillars
object, or the raised error. -/
def recover (jrepair : List Char → Except String Json) (c : RawContent) :
    Except RecErr Json :=
  match c with
  | .dict fields => checkPillars (.obj fields)
  | .text s =>
    match parseStages jrepair (preprocess s) with
    | .ok p => checkPillars p
    | .error e => .error e


/-! ### Python string helpers for the schema layer -/

/-- Model of Python `needle in hay` (substring containment). -/
def substrOf (needle hay : List Char) : Bool :=
  (List.range (hay.length + 1)).any (fun i => needle.isPrefixOf (hay.drop i))

/-- Python `needle in hay` on `String`. -/
def pyIn (needle hay : String) : Bool := substrOf needle.toList hay.toList

set_option maxHeartbeats 1600000 in
/-- Code points at or above 0x80 whose Python `str.lower()` image differs
from the character itself, paired with that image, generated from CPython's
Unicode database (`unicodeobject.c`, `do_lower` via `_PyUnicode_ToLowerFull`).
U+0130, whose image is the two characters U+0069 U+0307, is inlined in
`toLowerFull`; every other image is a single character.  U+03A3 appears
here with its isolated image; in context it is handled by `finalSigma`
below, exactly as `lower_ucs4` special-cases it. -/
def lowerTable : List (Nat × Nat) := [
  (0xc0, 0xe0), (0xc1, 0xe1), (0xc2, 0xe2), (0xc3, 0xe3), (0xc4, 0xe4),
  (0xc5, 0xe5), (0xc6, 0xe6), (0xc7, 0xe7), (0xc8, 0xe8), (0xc9, 0xe9),
  (0xca, 0xea), (0xcb, 0xeb), (0xcc, 0xec), (0xcd, 0xed), (0xce, 0xee),
  (0xcf, 0xef), (0xd0, 0xf0), (0xd1, 0xf1), (0xd2, 0xf2), (0xd3, 0xf3),
  (0xd4, 0xf4), (0xd5, 0xf5), (0xd6, 0xf6), (0xd8, 0xf8), (0xd9, 0xf9),
  (0xda, 0xfa), (0xdb, 0xfb), (0xdc, 0xfc), (0xdd, 0xfd), (0xde, 0xfe),
  (0x100, 0x101), (0x102, 0x103), (0x104, 0x105), (0x106, 0x107), (0x108, 0x109),
  (0x10a, 0x10b), (0x10c, 0x10d), (0x10e, 0x10f), (0x110, 0x111), (0x112, 0x113),
  (0x114, 0x115), (0x116, 0x117), (0x118, 0x119), (0x11a, 0x11b), (0x11c, 0x11d),
  (0x11e, 0x11f), (0x120, 0x121), (0x122, 0x123), (0x124, 0x125), (0x126, 0x127),
  (0x128, 0x129), (0x12a, 0x12b), (0x12c, 0x12d), (0x12e, 0x12f), (0x132, 0x133),
  (0x134, 0x135), (0x136, 0x137), (0x139, 0x13a), (0x13b, 0x13c), (0x13d, 0x13e),
  (0x13f, 0x140), (0x141, 0x142), (0x143, 0x144), (0x145, 0x146), (0x147, 0x148),
  (0x14a, 0x14b), (0x14c, 0x14d), (0x14e, 0x14f), (0x150, 0x151), (0x152, 0x153),
  (0x154, 0x155), (0x156, 0x157), (0x158, 0x159), (0x15a, 0x15b), (0x15c, 0x15d),
  (0x15e, 0x15f), (0x160, 0x161), (0x162, 0x163), (0x164, 0x165), (0x166, 0x167),
  (0x168, 0x169), (0x16a, 0x16b), (0x16c, 0x16d), (0x16e, 0x16f), (0x170, 0x171),
  (0x172, 0x173), (0x174, 0x175), (0x176, 0x177), (0x178, 0xff), (0x179, 0x17a),
  (0x17b, 0x17c), (0x17d, 0x17e), (0x181, 0x253), (0x182, 0x183), (0x184, 0x185),
  (0x186, 0x254), (0x187, 0x188), (0x189, 0x256), (0x18a, 0x257), (0x18b, 0x18c),
  (0x18e, 0x1dd), (0x18f, 0x259), (0x190, 0x25b), (0x191, 0x192), (0x193, 0x260),
  (0x194, 0x263), (0x196, 0x269), (0x197, 0x268), (0x198, 0x199), (0x19c, 0x26f),
  (0x19d, 0x272), (0x19f, 0x275), (0x1a0, 0x1a1), (0x1a2, 0x1a3), (0x1a4, 0x1a5),
  (0x1a6, 0x280), (0x1a7, 0x1a8), (0x1a9, 0x283), (0x1ac, 0x1ad), (0x1ae, 0x288),
  (0x1af, 0x1b0), (0x1b1, 0x28a), (0x1b2, 0x28b), (0x1b3, 0x1b4), (0x1b5, 0x1b6),
  (0x1b7, 0x292), (0x1b8, 0x1b9), (0x1bc, 0x1bd), (0x1c4, 0x1c6), (0x1c5, 0x1c6),
  (0x1c7, 0x1c9), (0x1c8, 0x1c9), (0x1ca, 0x1cc), (0x1cb, 0x1cc), (0x1cd, 0x1ce),
  (0x1cf, 0x1d0), (0x1d1, 0x1d2), (0x1d3, 0x1d4), (0x1d5, 0x1d6), (0x1d7, 0x1d8),
  (0x1d9, 0x1da), (0x1db, 0x1dc), (0x1de, 0x1df), (0x1e0, 0x1e1), (0x1e2, 0x1e3),
  (0x1e4, 0x1e5), (0x1e6, 0x1e7), (0x1e8, 0x1e9), (0x1ea, 0x1eb), (0x1ec, 0x1ed),
  (0x1ee, 0x1ef), (0x1f1, 0x1f3), (0x1f2, 0x1f3), (0x1f4, 0x1f5), (0x1f6, 0x195),
  (0x1f7, 0x1bf), (0x1f8, 0x1f9), (0x1fa, 0x1fb), (0x1fc, 0x1fd), (0x1fe, 0x1ff),
  (0x200, 0x201), (0x202, 0x203), (0x204, 0x205), (0x206, 0x207), (0x208, 0x209),
  (0x20a, 0x20b), (0x20c, 0x20d), (0x20e, 0x20f), (0x210, 0x211), (0x212, 0x213),
  (0x214, 0x215), (0x216, 0x217), (0x218, 0x219), (0x21a, 0x21b), (0x21c, 0x21d),
  (0x21e, 0x21f), (0x220, 0x19e), (0x222, 0x223), (0x224, 0x225), (0x226, 0x227),
  (0x228, 0x229), (0x22a, 0x22b), (0x22c, 0x22d), (0x22e, 0x22f), (0x230, 0x231),
  (0x232, 0x233), (0x23a, 0x2c65), (0x23b, 0x23c), (0x23d, 0x19a), (0x23e, 0x2c66),
  (0x241, 0x242), (0x243, 0x180), (0x244, 0x289), (0x245, 0x28c), (0x246, 0x247),
  (0x248, 0x249), (0x24a, 0x24b), (0x24c, 0x24d), (0x24e, 0x24f), (0x370, 0x371),
  (0x372, 0x373), (0x376, 0x377), (0x37f, 0x3f3), (0x386, 0x3ac), (0x388, 0x3ad),
  (0x389, 0x3ae), (0x38a, 0x3af), (0x38c, 0x3cc), (0x38e, 0x3cd), (0x38f, 0x3ce),
  (0x391, 0x3b1), (0x392, 0x3b2), (0x393, 0x3b3), (0x394, 0x3b4), (0x395, 0x3b5),
  (0x396, 0x3b6), (0x397, 0x3b7), (0x398, 0x3b8), (0x399, 0x3b9), (0x39a, 0x3ba),
  (0x39b, 0x3bb), (0x39c, 0x3bc), (0x39d, 0x3bd), (0x39e, 0x3be), (0x39f, 0x3bf),
  (0x3a0, 0x3c0), (0x3a1, 0x3c1), (0x3a3, 0x3c3), (0x3a4, 0x3c4), (0x3a5, 0x3c5),
  (0x3a6, 0x3c6), (0x3a7, 0x3c7), (0x3a8, 0x3c8), (0x3a9, 0x3c9), (0x3aa, 0x3ca),
  (0x3ab, 0x3cb), (0x3cf, 0x3d7), (0x3d8, 0x3d9), (0x3da, 0x3db), (0x3dc, 0x3dd),
  (0x3de, 0x3df), (0x3e0, 0x3e1), (0x3e2, 0x3e3), (0x3e4, 0x3e5), (0x3e6, 0x3e7),
  (0x3e8, 0x3e9), (0x3ea, 0x3eb), (0x3ec, 0x3ed), (0x3ee, 0x3ef), (0x3f4, 0x3b8),
  (0x3f7, 0x3f8), (0x3f9, 0x3f2), (0x3fa, 0x3fb), (0x3fd, 0x37b), (0x3fe, 0x37c),
  (0x3ff, 0x37d), (0x400, 0x450), (0x401, 0x451), (0x402, 0x452), (0x403, 0x453),
  (0x404, 0x454), (0x405, 0x455), (0x406, 0x456), (0x407, 0x457), (0x408, 0x458),
  (0x409, 0x459), (0x40a, 0x45a), (0x40b, 0x45b), (0x40c, 0x45c), (0x40d, 0x45d),
  (0x40e, 0x45e), (0x40f, 0x45f), (0x410, 0x430), (0x411, 0x431), (0x412, 0x432),
  (0x413, 0x433), (0x414, 0x434), (0x415, 0x435), (0x416, 0x436), (0x417, 0x437),
  (0x418, 0x438), (0x419, 0x439), (0x41a, 0x43a), (0x41b, 0x43b), (0x41c, 0x43c),
  (0x41d, 0x43d), (0x41e, 0x43e), (0x41f, 0x43f), (0x420, 0x440), (0x421, 0x441),
  (0x422, 0x442), (0x423, 0x443), (0x424, 0x444), (0x425, 0x445), (0x426, 0x446),
  (0x427, 0x447), (0x428, 0x448), (0x429, 0x449), (0x42a, 0x44a), (0x42b, 0x44b),
  (0x42c, 0x44c), (0x42d, 0x44d), (0x42e, 0x44e), (0x42f, 0x44f), (0x460, 0x461),
  (0x462, 0x463), (0x464, 0x465), (0x466, 0x467), (0x468, 0x469), (0x46a, 0x46b),
  (0x46c, 0x46d), (0x46e, 0x46f), (0x470, 0x471), (0x472, 0x473), (0x474, 0x475),
  (0x476, 0x477), (0x478, 0x479), (0x47a, 0x47b), (0x47c, 0x47d), (0x47e, 0x47f),
  (0x480, 0x481), (0x48a, 0x48b), (0x48c, 0x48d), (0x48e, 0x48f), (0x490, 0x491),
  (0x492, 0x493), (0x494, 0x495), (0x496, 0x497), (0x498, 0x499), (0x49a, 0x49b),
  (0x49c, 0x49d), (0x49e, 0x49f), (0x4a0, 0x4a1), (0x4a2, 0x4a3), (0x4a4, 0x4a5),
  (0x4a6, 0x4a7), (0x4a8, 0x4a9), (0x4aa, 0x4ab), (0x4ac, 0x4ad), (0x4ae, 0x4af),
  (0x4b0, 0x4b1), (0x4b2, 0x4b3), (0x4b4, 0x4b5), (0x4b6, 0x4b7), (0x4b8, 0x4b9),
  (0x4ba, 0x4bb), (0x4bc, 0x4bd), (0x4be, 0x4bf), (0x4c0, 0x4cf), (0x4c1, 0x4c2),
  (0x4c3, 0x4c4), (0x4c5, 0x4c6), (0x4c7, 0x4c8), (0x4c9, 0x4ca), (0x4cb, 0x4cc),
  (0x4cd, 0x4ce), (0x4d0, 0x4d1), (0x4d2, 0x4d3), (0x4d4, 0x4d5), (0x4d6, 0x4d7),
  (0x4d8, 0x4d9), (0x4da, 0x4db), (0x4dc, 0x4dd), (0x4de, 0x4df), (0x4e0, 0x4e1),
  (0x4e2, 0x4e3), (0x4e4, 0x4e5), (0x4e6, 0x4e7), (0x4e8, 0x4e9), (0x4ea, 0x4eb),
  (0x4ec, 0x4ed), (0x4ee, 0x4ef), (0x4f0, 0x4f1), (0x4f2, 0x4f3), (0x4f4, 0x4f5),
  (0x4f6, 0x4f7), (0x4f8, 0x4f9), (0x4fa, 0x4fb), (0x4fc, 0x4fd), (0x4fe, 0x4ff),
  (0x500, 0x501), (0x502, 0x503), (0x504, 0x505), (0x506, 0x507), (0x508, 0x509),
  (0x50a, 0x50b), (0x50c, 0x50d), (0x50e, 0x50f), (0x510, 0x511), (0x512, 0x513),
  (0x514, 0x515), (0x516, 0x517), (0x518, 0x519), (0x51a, 0x51b), (0x51c, 0x51d),
  (0x51e, 0x51f), (0x520, 0x521), (0x522, 0x523), (0x524, 0x525), (0x526, 0x527),
  (0x528, 0x529), (0x52a, 0x52b), (0x52c, 0x52d), (0x52e, 0x52f), (0x531, 0x561),
  (0x532, 0x562), (0x533, 0x563), (0x534, 0x564), (0x535, 0x565), (0x536, 0x566),
  (0x537, 0x567), (0x538, 0x568), (0x539, 0x569), (0x53a, 0x56a), (0x53b, 0x56b),
  (0x53c, 0x56c), (0x53d, 0x56d), (0x53e, 0x56e), (0x53f, 0x56f), (0x540, 0x570),
  (0x541, 0x571), (0x542, 0x572), (0x543, 0x573), (0x544, 0x574), (0x545, 0x575),
  (0x546, 0x576), (0x547, 0x577), (0x548, 0x578), (0x549, 0x579), (0x54a, 0x57a),
  (0x54b, 0x57b), (0x54c, 0x57c), (0x54d, 0x57d), (0x54e, 0x57e), (0x54f, 0x57f),
  (0x550, 0x580), (0x551, 0x581), (0x552, 0x582), (0x553, 0x583), (0x554, 0x584),
  (0x555, 0x585), (0x556, 0x586), (0x10a0, 0x2d00), (0x10a1, 0x2d01), (0x10a2, 0x2d02),
  (0x10a3, 0x2d03), (0x10a4, 0x2d04), (0x10a5, 0x2d05), (0x10a6, 0x2d06), (0x10a7, 0x2d07),
  (0x10a8, 0x2d08), (0x10a9, 0x2d09), (0x10aa, 0x2d0a), (0x10ab, 0x2d0b), (0x10ac, 0x2d0c),
  (0x10ad, 0x2d0d), (0x10ae, 0x2d0e), (0x10af, 0x2d0f), (0x10b0, 0x2d10), (0x10b1, 0x2d11),
  (0x10b2, 0x2d12), (0x10b3, 0x2d13), (0x10b4, 0x2d14), (0x10b5, 0x2d15), (0x10b6, 0x2d16),
  (0x10b7, 0x2d17), (0x10b8, 0x2d18), (0x10b9, 0x2d19), (0x10ba, 0x2d1a), (0x10bb, 0x2d1b),
  (0x10bc, 0x2d1c), (0x10bd, 0x2d1d), (0x10be, 0x2d1e), (0x10bf, 0x2d1f), (0x10c0, 0x2d20),
  (0x10c1, 0x2d21), (0x10c2, 0x2d22), (0x10c3, 0x2d23), (0x10c4, 0x2d24), (0x10c5, 0x2d25),
  (0x10c7, 0x2d27), (0x10cd, 0x2d2d), (0x13a0, 0xab70), (0x13a1, 0xab71), (0x13a2, 0xab72),
  (0x13a3, 0xab73), (0x13a4, 0xab74), (0x13a5, 0xab75), (0x13a6, 0xab76), (0x13a7, 0xab77),
  (0x13a8, 0xab78), (0x13a9, 0xab79), (0x13aa, 0xab7a), (0x13ab, 0xab7b), (0x13ac, 0xab7c),
  (0x13ad, 0xab7d), (0x13ae, 0xab7e), (0x13af, 0xab7f), (0x13b0, 0xab80), (0x13b1, 0xab81),
  (0x13b2, 0xab82), (0x13b3, 0xab83), (0x13b4, 0xab84), (0x13b5, 0xab85), (0x13b6, 0xab86),
  (0x13b7, 0xab87), (0x13b8, 0xab88), (0x13b9, 0xab89), (0x13ba, 0xab8a), (0x13bb, 0xab8b),
  (0x13bc, 0xab8c), (0x13bd, 0xab8d), (0x13be, 0xab8e), (0x13bf, 0xab8f), (0x13c0, 0xab90),
  (0x13c1, 0xab91), (0x13c2, 0xab92), (0x13c3, 0xab93), (0x13c4, 0xab94), (0x13c5, 0xab95),
  (0x13c6, 0xab96), (0x13c7, 0xab97), (0x13c8, 0xab98), (0x13c9, 0xab99), (0x13ca, 0xab9a),
  (0x13cb, 0xab9b), (0x13cc, 0xab9c), (0x13cd, 0xab9d), (0x13ce, 0xab9e), (0x13cf, 0xab9f),
  (0x13d0, 0xaba0), (0x13d1, 0xaba1), (0x13d2, 0xaba2), (0x13d3, 0xaba3), (0x13d4, 0xaba4),
  (0x13d5, 0xaba5), (0x13d6, 0xaba6), (0x13d7, 0xaba7), (0x13d8, 0xaba8), (0x13d9, 0xaba9),
  (0x13da, 0xabaa), (0x13db, 0xabab), (0x13dc, 0xabac), (0x13dd, 0xabad), (0x13de, 0xabae),
  (0x13df, 0xabaf), (0x13e0, 0xabb0), (0x13e1, 0xabb1), (0x13e2, 0xabb2), (0x13e3, 0xabb3),
  (0x13e4, 0xabb4), (0x13e5, 0xabb5), (0x13e6, 0xabb6), (0x13e7, 0xabb7), (0x13e8, 0xabb8),
  (0x13e9, 0xabb9), (0x13ea, 0xabba), (0x13eb, 0xabbb), (0x13ec, 0xabbc), (0x13ed, 0xabbd),
  (0x13ee, 0xabbe), (0x13ef, 0xabbf), (0x13f0, 0x13f8), (0x13f1, 0x13f9), (0x13f2, 0x13fa),
  (0x13f3, 0x13fb), (0x13f4, 0x13fc), (0x13f5, 0x13fd), (0x1c90, 0x10d0), (0x1c91, 0x10d1),
  (0x1c92, 0x10d2), (0x1c93, 0x10d3), (0x1c94, 0x10d4), (0x1c95, 0x10d5), (0x1c96, 0x10d6),
  (0x1c97, 0x10d7), (0x1c98, 0x10d8), (0x1c99, 0x10d9), (0x1c9a, 0x10da), (0x1c9b, 0x10db),
  (0x1c9c, 0x10dc), (0x1c9d, 0x10dd), (0x1c9e, 0x10de), (0x1c9f, 0x10df), (0x1ca0, 0x10e0),
  (0x1ca1, 0x10e1), (0x1ca2, 0x10e2), (0x1ca3, 0x10e3), (0x1ca4, 0x10e4), (0x1ca5, 0x10e5),
  (0x1ca6, 0x10e6), (0x1ca7, 0x10e7), (0x1ca8, 0x10e8), (0x1ca9, 0x10e9), (0x1caa, 0x10ea),
  (0x1cab, 0x10eb), (0x1cac, 0x10ec), (0x1cad, 0x10ed), (0x1cae, 0x10ee), (0x1caf, 0x10ef),
  (0x1cb0, 0x10f0), (0x1cb1, 0x10f1), (0x1cb2, 0x10f2), (0x1cb3, 0x10f3), (0x1cb4, 0x10f4),
  (0x1cb5, 0x10f5), (0x1cb6, 0x10f6), (0x1cb7, 0x10f7), (0x1cb8, 0x10f8), (0x1cb9, 0x10f9),
  (0x1cba, 0x10fa), (0x1cbd, 0x10fd), (0x1cbe, 0x10fe), (0x1cbf, 0x10ff), (0x1e00, 0x1e01),
  (0x1e02, 0x1e03), (0x1e04, 0x1e05), (0x1e06, 0x1e07), (0x1e08, 0x1e09), (0x1e0a, 0x1e0b),
  (0x1e0c, 0x1e0d), (0x1e0e, 0x1e0f), (0x1e10, 0x1e11), (0x1e12, 0x1e13), (0x1e14, 0x1e15),
  (0x1e16, 0x1e17), (0x1e18, 0x1e19), (0x1e1a, 0x1e1b), (0x1e1c, 0x1e1d), (0x1e1e, 0x1e1f),
  (0x1e20, 0x1e21), (0x1e22, 0x1e23), (0x1e24, 0x1e25), (0x1e26, 0x1e27), (0x1e28, 0x1e29),
  (0x1e2a, 0x1e2b), (0x1e2c, 0x1e2d), (0x1e2e, 0x1e2f), (0x1e30, 0x1e31), (0x1e32, 0x1e33),
  (0x1e34, 0x1e35), (0x1e36, 0x1e37), (0x1e38, 0x1e39), (0x1e3a, 0x1e3b), (0x1e3c, 0x1e3d),
  (0x1e3e, 0x1e3f), (0x1e40, 0x1e41), (0x1e42, 0x1e43), (0x1e44, 0x1e45), (0x1e46, 0x1e47),
  (0x1e48, 0x1e49), (0x1e4a, 0x1e4b), (0x1e4c, 0x1e4d), (0x1e4e, 0x1e4f), (0x1e50, 0x1e51),
  (0x1e52, 0x1e53), (0x1e54, 0x1e55), (0x1e56, 0x1e57), (0x1e58, 0x1e59), (0x1e5a, 0x1e5b),
  (0x1e5c, 0x1e5d), (0x1e5e, 0x1e5f), (0x1e60, 0x1e61), (0x1e62, 0x1e63), (0x1e64, 0x1e65),
  (0x1e66, 0x1e67), (0x1e68, 0x1e69), (0x1e6a, 0x1e6b), (0x1e6c, 0x1e6d), (0x1e6e, 0x1e6f),
  (0x1e70, 0x1e71), (0x1e72, 0x1e73), (0x1e74, 0x1e75), (0x1e76, 0x1e77), (0x1e78, 0x1e79),
  (0x1e7a, 0x1e7b), (0x1e7c, 0x1e7d), (0x1e7e, 0x1e7f), (0x1e80, 0x1e81), (0x1e82, 0x1e83),
  (0x1e84, 0x1e85), (0x1e86, 0x1e87), (0x1e88, 0x1e89), (0x1e8a, 0x1e8b), (0x1e8c, 0x1e8d),
  (0x1e8e, 0x1e8f), (0x1e90, 0x1e91), (0x1e92, 0x1e93), (0x1e94, 0x1e95), (0x1e9e, 0xdf),
  (0x1ea0, 0x1ea1), (0x1ea2, 0x1ea3), (0x1ea4, 0x1ea5), (0x1ea6, 0x1ea7), (0x1ea8, 0x1ea9),
  (0x1eaa, 0x1eab), (0x1eac, 0x1ead), (0x1eae, 0x1eaf), (0x1eb0, 0x1eb1), (0x1eb2, 0x1eb3),
  (0x1eb4, 0x1eb5), (0x1eb6, 0x1eb7), (0x1eb8, 0x1eb9), (0x1eba, 0x1ebb), (0x1ebc, 0x1ebd),
  (0x1ebe, 0x1ebf), (0x1ec0, 0x1ec1), (0x1ec2, 0x1ec3), (0x1ec4, 0x1ec5), (0x1ec6, 0x1ec7),
  (0x1ec8, 0x1ec9), (0x1eca, 0x1ecb), (0x1ecc, 0x1ecd), (0x1ece, 0x1ecf), (0x1ed0, 0x1ed1),
  (0x1ed2, 0x1ed3), (0x1ed4, 0x1ed5), (0x1ed6, 0x1ed7), (0x1ed8, 0x1ed9), (0x1eda, 0x1edb),
  (0x1edc, 0x1edd), (0x1ede, 0x1edf), (0x1ee0, 0x1ee1), (0x1ee2, 0x1ee3), (0x1ee4, 0x1ee5),
  (0x1ee6, 0x1ee7), (0x1ee8, 0x1ee9), (0x1eea, 0x1eeb), (0x1eec, 0x1eed), (0x1eee, 0x1eef),
  (0x1ef0, 0x1ef1), (0x1ef2, 0x1ef3), (0x1ef4, 0x1ef5), (0x1ef6, 0x1ef7), (0x1ef8, 0x1ef9),
  (0x1efa, 0x1efb), (0x1efc, 0x1efd), (0x1efe, 0x1eff), (0x1f08, 0x1f00), (0x1f09, 0x1f01),
  (0x1f0a, 0x1f02), (0x1f0b, 0x1f03), (0x1f0c, 0x1f04), (0x1f0d, 0x1f05), (0x1f0e, 0x1f06),
  (0x1f0f, 0x1f07), (0x1f18, 0x1f10), (0x1f19, 0x1f11), (0x1f1a, 0x1f12), (0x1f1b, 0x1f13),
  (0x1f1c, 0x1f14), (0x1f1d, 0x1f15), (0x1f28, 0x1f20), (0x1f29, 0x1f21), (0x1f2a, 0x1f22),
  (0x1f2b, 0x1f23), (0x1f2c, 0x1f24), (0x1f2d, 0x1f25), (0x1f2e, 0x1f26), (0x1f2f, 0x1f27),
  (0x1f38, 0x1f30), (0x1f39, 0x1f31), (0x1f3a, 0x1f32), (0x1f3b, 0x1f33), (0x1f3c, 0x1f34),
  (0x1f3d, 0x1f35), (0x1f3e, 0x1f36), (0x1f3f, 0x1f37), (0x1f48, 0x1f40), (0x1f49, 0x1f41),
  (0x1f4a, 0x1f42), (0x1f4b, 0x1f43), (0x1f4c, 0x1f44), (0x1f4d, 0x1f45), (0x1f59, 0x1f51),
  (0x1f5b, 0x1f53), (0x1f5d, 0x1f55), (0x1f5f, 0x1f57), (0x1f68, 0x1f60), (0x1f69, 0x1f61),
  (0x1f6a, 0x1f62), (0x1f6b, 0x1f63), (0x1f6c, 0x1f64), (0x1f6d, 0x1f65), (0x1f6e, 0x1f66),
  (0x1f6f, 0x1f67), (0x1f88, 0x1f80), (0x1f89, 0x1f81), (0x1f8a, 0x1f82), (0x1f8b, 0x1f83),
  (0x1f8c, 0x1f84), (0x1f8d, 0x1f85), (0x1f8e, 0x1f86), (0x1f8f, 0x1f87), (0x1f98, 0x1f90),
  (0x1f99, 0x1f91), (0x1f9a, 0x1f92), (0x1f9b, 0x1f93), (0x1f9c, 0x1f94), (0x1f9d, 0x1f95),
  (0x1f9e, 0x1f96), (0x1f9f, 0x1f97), (0x1fa8, 0x1fa0), (0x1fa9, 0x1fa1), (0x1faa, 0x1fa2),
  (0x1fab, 0x1fa3), (0x1fac, 0x1fa4), (0x1fad, 0x1fa5), (0x1fae, 0x1fa6), (0x1faf, 0x1fa7),
  (0x1fb8, 0x1fb0), (0x1fb9, 0x1fb1), (0x1fba, 0x1f70), (0x1fbb, 0x1f71), (0x1fbc, 0x1fb3),
  (0x1fc8, 0x1f72), (0x1fc9, 0x1f73), (0x1fca, 0x1f74), (0x1fcb, 0x1f75), (0x1fcc, 0x1fc3),
  (0x1fd8, 0x1fd0), (0x1fd9, 0x1fd1), (0x1fda, 0x1f76), (0x1fdb, 0x1f77), (0x1fe8, 0x1fe0),
  (0x1fe9, 0x1fe1), (0x1fea, 0x1f7a), (0x1feb, 0x1f7b), (0x1fec, 0x1fe5), (0x1ff8, 0x1f78),
  (0x1ff9, 0x1f79), (0x1ffa, 0x1f7c), (0x1ffb, 0x1f7d), (0x1ffc, 0x1ff3), (0x2126, 0x3c9),
  (0x212a, 0x6b), (0x212b, 0xe5), (0x2132, 0x214e), (0x2160, 0x2170), (0x2161, 0x2171),
  (0x2162, 0x2172), (0x2163, 0x2173), (0x2164, 0x2174), (0x2165, 0x2175), (0x2166, 0x2176),
  (0x2167, 0x2177), (0x2168, 0x2178), (0x2169, 0x2179), (0x216a, 0x217a), (0x216b, 0x217b),
  (0x216c, 0x217c), (0x216d, 0x217d), (0x216e, 0x217e), (0x216f, 0x217f), (0x2183, 0x2184),
  (0x24b6, 0x24d0), (0x24b7, 0x24d1), (0x24b8, 0x24d2), (0x24b9, 0x24d3), (0x24ba, 0x24d4),
  (0x24bb, 0x24d5), (0x24bc, 0x24d6), (0x24bd, 0x24d7), (0x24be, 0x24d8), (0x24bf, 0x24d9),
  (0x24c0, 0x24da), (0x24c1, 0x24db), (0x24c2, 0x24dc), (0x24c3, 0x24dd), (0x24c4, 0x24de),
  (0x24c5, 0x24df), (0x24c6, 0x24e0), (0x24c7, 0x24e1), (0x24c8, 0x24e2), (0x24c9, 0x24e3),
  (0x24ca, 0x24e4), (0x24cb, 0x24e5), (0x24cc, 0x24e6), (0x24cd, 0x24e7), (0x24ce, 0x24e8),
  (0x24cf, 0x24e9), (0x2c00, 0x2c30), (0x2c01, 0x2c31), (0x2c02, 0x2c32), (0x2c03, 0x2c33),
  (0x2c04, 0x2c34), (0x2c05, 0x2c35), (0x2c06, 0x2c36), (0x2c07, 0x2c37), (0x2c08, 0x2c38),
  (0x2c09, 0x2c39), (0x2c0a, 0x2c3a), (0x2c0b, 0x2c3b), (0x2c0c, 0x2c3c), (0x2c0d, 0x2c3d),
  (0x2c0e, 0x2c3e), (0x2c0f, 0x2c3f), (0x2c10, 0x2c40), (0x2c11, 0x2c41), (0x2c12, 0x2c42),
  (0x2c13, 0x2c43), (0x2c14, 0x2c44), (0x2c15, 0x2c45), (0x2c16, 0x2c46), (0x2c17, 0x2c47),
  (0x2c18, 0x2c48), (0x2c19, 0x2c49), (0x2c1a, 0x2c4a), (0x2c1b, 0x2c4b), (0x2c1c, 0x2c4c),
  (0x2c1d, 0x2c4d), (0x2c1e, 0x2c4e), (0x2c1f, 0x2c4f), (0x2c20, 0x2c50), (0x2c21, 0x2c51),
  (0x2c22, 0x2c52), (0x2c23, 0x2c53), (0x2c24, 0x2c54), (0x2c25, 0x2c55), (0x2c26, 0x2c56),
  (0x2c27, 0x2c57), (0x2c28, 0x2c58), (0x2c29, 0x2c59), (0x2c2a, 0x2c5a), (0x2c2b, 0x2c5b),
  (0x2c2c, 0x2c5c), (0x2c2d, 0x2c5d), (0x2c2e, 0x2c5e), (0x2c2f, 0x2c5f), (0x2c60, 0x2c61),
  (0x2c62, 0x26b), (0x2c63, 0x1d7d), (0x2c64, 0x27d), (0x2c67, 0x2c68), (0x2c69, 0x2c6a),
  (0x2c6b, 0x2c6c), (0x2c6d, 0x251), (0x2c6e, 0x271), (0x2c6f, 0x250), (0x2c70, 0x252),
  (0x2c72, 0x2c73), (0x2c75, 0x2c76), (0x2c7e, 0x23f), (0x2c7f, 0x240), (0x2c80, 0x2c81),
  (0x2c82, 0x2c83), (0x2c84, 0x2c85), (0x2c86, 0x2c87), (0x2c88, 0x2c89), (0x2c8a, 0x2c8b),
  (0x2c8c, 0x2c8d), (0x2c8e, 0x2c8f), (0x2c90, 0x2c91), (0x2c92, 0x2c93), (0x2c94, 0x2c95),
  (0x2c96, 0x2c97), (0x2c98, 0x2c99), (0x2c9a, 0x2c9b), (0x2c9c, 0x2c9d), (0x2c9e, 0x2c9f),
  (0x2ca0, 0x2ca1), (0x2ca2, 0x2ca3), (0x2ca4, 0x2ca5), (0x2ca6, 0x2ca7), (0x2ca8, 0x2ca9),
  (0x2caa, 0x2cab), (0x2cac, 0x2cad), (0x2cae, 0x2caf), (0x2cb0, 0x2cb1), (0x2cb2, 0x2cb3),
  (0x2cb4, 0x2cb5), (0x2cb6, 0x2cb7), (0x2cb8, 0x2cb9), (0x2cba, 0x2cbb), (0x2cbc, 0x2cbd),
  (0x2cbe, 0x2cbf), (0x2cc0, 0x2cc1), (0x2cc2, 0x2cc3), (0x2cc4, 0x2cc5), (0x2cc6, 0x2cc7),
  (0x2cc8, 0x2cc9), (0x2cca, 0x2ccb), (0x2ccc, 0x2ccd), (0x2cce, 0x2ccf), (0x2cd0, 0x2cd1),
  (0x2cd2, 0x2cd3), (0x2cd4, 0x2cd5), (0x2cd6, 0x2cd7), (0x2cd8, 0x2cd9), (0x2cda, 0x2cdb),
  (0x2cdc, 0x2cdd), (0x2cde, 0x2cdf), (0x2ce0, 0x2ce1), (0x2ce2, 0x2ce3), (0x2ceb, 0x2cec),
  (0x2ced, 0x2cee), (0x2cf2, 0x2cf3), (0xa640, 0xa641), (0xa642, 0xa643), (0xa644, 0xa645),
  (0xa646, 0xa647), (0xa648, 0xa649), (0xa64a, 0xa64b), (0xa64c, 0xa64d), (0xa64e, 0xa64f),
  (0xa650, 0xa651), (0xa652, 0xa653), (0xa654, 0xa655), (0xa656, 0xa657), (0xa658, 0xa659),
  (0xa65a, 0xa65b), (0xa65c, 0xa65d), (0xa65e, 0xa65f), (0xa660, 0xa661), (0xa662, 0xa663),
  (0xa664, 0xa665), (0xa666, 0xa667), (0xa668, 0xa669), (0xa66a, 0xa66b), (0xa66c, 0xa66d),
  (0xa680, 0xa681), (0xa682, 0xa683), (0xa684, 0xa685), (0xa686, 0xa687), (0xa688, 0xa689),
  (0xa68a, 0xa68b), (0xa68c, 0xa68d), (0xa68e, 0xa68f), (0xa690, 0xa691), (0xa692, 0xa693),
  (0xa694, 0xa695), (0xa696, 0xa697), (0xa698, 0xa699), (0xa69a, 0xa69b), (0xa722, 0xa723),
  (0xa724, 0xa725), (0xa726, 0xa727), (0xa728, 0xa729), (0xa72a, 0xa72b), (0xa72c, 0xa72d),
  (0xa72e, 0xa72f), (0xa732, 0xa733), (0xa734, 0xa735), (0xa736, 0xa737), (0xa738, 0xa739),
  (0xa73a, 0xa73b), (0xa73c, 0xa73d), (0xa73e, 0xa73f), (0xa740, 0xa741), (0xa742, 0xa743),
  (0xa744, 0xa745), (0xa746, 0xa747), (0xa748, 0xa749), (0xa74a, 0xa74b), (0xa74c, 0xa74d),
  (0xa74e, 0xa74f), (0xa750, 0xa751), (0xa752, 0xa753), (0xa754, 0xa755), (0xa756, 0xa757),
  (0xa758, 0xa759), (0xa75a, 0xa75b), (0xa75c, 0xa75d), (0xa75e, 0xa75f), (0xa760, 0xa761),
  (0xa762, 0xa763), (0xa764, 0xa765), (0xa766, 0xa767), (0xa768, 0xa769), (0xa76a, 0xa76b),
  (0xa76c, 0xa76d), (0xa76e, 0xa76f), (0xa779, 0xa77a), (0xa77b, 0xa77c), (0xa77d, 0x1d79),
  (0xa77e, 0xa77f), (0xa780, 0xa781), (0xa782, 0xa783), (0xa784, 0xa785), (0xa786, 0xa787),
  (0xa78b, 0xa78c), (0xa78d, 0x265), (0xa790, 0xa791), (0xa792, 0xa793), (0xa796, 0xa797),
  (0xa798, 0xa799), (0xa79a, 0xa79b), (0xa79c, 0xa79d), (0xa79e, 0xa79f), (0xa7a0, 0xa7a1),
  (0xa7a2, 0xa7a3), (0xa7a4, 0xa7a5), (0xa7a6, 0xa7a7), (0xa7a8, 0xa7a9), (0xa7aa, 0x266),
  (0xa7ab, 0x25c), (0xa7ac, 0x261), (0xa7ad, 0x26c), (0xa7ae, 0x26a), (0xa7b0, 0x29e),
  (0xa7b1, 0x287), (0xa7b2, 0x29d), (0xa7b3, 0xab53), (0xa7b4, 0xa7b5), (0xa7b6, 0xa7b7),
  (0xa7b8, 0xa7b9), (0xa7ba, 0xa7bb), (0xa7bc, 0xa7bd), (0xa7be, 0xa7bf), (0xa7c0, 0xa7c1),
  (0xa7c2, 0xa7c3), (0xa7c4, 0xa794), (0xa7c5, 0x282), (0xa7c6, 0x1d8e), (0xa7c7, 0xa7c8),
  (0xa7c9, 0xa7ca), (0xa7d0, 0xa7d1), (0xa7d6, 0xa7d7), (0xa7d8, 0xa7d9), (0xa7f5, 0xa7f6),
  (0xff21, 0xff41), (0xff22, 0xff42), (0xff23, 0xff43), (0xff24, 0xff44), (0xff25, 0xff45),
  (0xff26, 0xff46), (0xff27, 0xff47), (0xff28, 0xff48), (0xff29, 0xff49), (0xff2a, 0xff4a),
  (0xff2b, 0xff4b), (0xff2c, 0xff4c), (0xff2d, 0xff4d), (0xff2e, 0xff4e), (0xff2f, 0xff4f),
  (0xff30, 0xff50), (0xff31, 0xff51), (0xff32, 0xff52), (0xff33, 0xff53), (0xff34, 0xff54),
  (0xff35, 0xff55), (0xff36, 0xff56), (0xff37, 0xff57), (0xff38, 0xff58), (0xff39, 0xff59),
  (0xff3a, 0xff5a), (0x10400, 0x10428), (0x10401, 0x10429), (0x10402, 0x1042a), (0x10403, 0x1042b),
  (0x10404, 0x1042c), (0x10405, 0x1042d), (0x10406, 0x1042e), (0x10407, 0x1042f), (0x10408, 0x10430),
  (0x10409, 0x10431), (0x1040a, 0x10432), (0x1040b, 0x10433), (0x1040c, 0x10434), (0x1040d, 0x10435),
  (0x1040e, 0x10436), (0x1040f, 0x10437), (0x10410, 0x10438), (0x10411, 0x10439), (0x10412, 0x1043a),
  (0x10413, 0x1043b), (0x10414, 0x1043c), (0x10415, 0x1043d), (0x10416, 0x1043e), (0x10417, 0x1043f),
  (0x10418, 0x10440), (0x10419, 0x10441), (0x1041a, 0x10442), (0x1041b, 0x10443), (0x1041c, 0x10444),
  (0x1041d, 0x10445), (0x1041e, 0x10446), (0x1041f, 0x10447), (0x10420, 0x10448), (0x10421, 0x10449),
  (0x10422, 0x1044a), (0x10423, 0x1044b), (0x10424, 0x1044c), (0x10425, 0x1044d), (0x10426, 0x1044e),
  (0x10427, 0x1044f), (0x104b0, 0x104d8), (0x104b1, 0x104d9), (0x104b2, 0x104da), (0x104b3, 0x104db),
  (0x104b4, 0x104dc), (0x104b5, 0x104dd), (0x104b6, 0x104de), (0x104b7, 0x104df), (0x104b8, 0x104e0),
  (0x104b9, 0x104e1), (0x104ba, 0x104e2), (0x104bb, 0x104e3), (0x104bc, 0x104e4), (0x104bd, 0x104e5),
  (0x104be, 0x104e6), (0x104bf, 0x104e7), (0x104c0, 0x104e8), (0x104c1, 0x104e9), (0x104c2, 0x104ea),
  (0x104c3, 0x104eb), (0x104c4, 0x104ec), (0x104c5, 0x104ed), (0x104c6, 0x104ee), (0x104c7, 0x104ef),
  (0x104c8, 0x104f0), (0x104c9, 0x104f1), (0x104ca, 0x104f2), (0x104cb, 0x104f3), (0x104cc, 0x104f4),
  (0x104cd, 0x104f5), (0x104ce, 0x104f6), (0x104cf, 0x104f7), (0x104d0, 0x104f8), (0x104d1, 0x104f9),
  (0x104d2, 0x104fa), (0x104d3, 0x104fb), (0x10570, 0x10597), (0x10571, 0x10598), (0x10572, 0x10599),
  (0x10573, 0x1059a), (0x10574, 0x1059b), (0x10575, 0x1059c), (0x10576, 0x1059d), (0x10577, 0x1059e),
  (0x10578, 0x1059f), (0x10579, 0x105a0), (0x1057a, 0x105a1), (0x1057c, 0x105a3), (0x1057d, 0x105a4),
  (0x1057e, 0x105a5), (0x1057f, 0x105a6), (0x10580, 0x105a7), (0x10581, 0x105a8), (0x10582, 0x105a9),
  (0x10583, 0x105aa), (0x10584, 0x105ab), (0x10585, 0x105ac), (0x10586, 0x105ad), (0x10587, 0x105ae),
  (0x10588, 0x105af), (0x10589, 0x105b0), (0x1058a, 0x105b1), (0x1058c, 0x105b3), (0x1058d, 0x105b4),
  (0x1058e, 0x105b5), (0x1058f, 0x105b6), (0x10590, 0x105b7), (0x10591, 0x105b8), (0x10592, 0x105b9),
  (0x10594, 0x105bb), (0x10595, 0x105bc), (0x10c80, 0x10cc0), (0x10c81, 0x10cc1), (0x10c82, 0x10cc2),
  (0x10c83, 0x10cc3), (0x10c84, 0x10cc4), (0x10c85, 0x10cc5), (0x10c86, 0x10cc6), (0x10c87, 0x10cc7),
  (0x10c88, 0x10cc8), (0x10c89, 0x10cc9), (0x10c8a, 0x10cca), (0x10c8b, 0x10ccb), (0x10c8c, 0x10ccc),
  (0x10c8d, 0x10ccd), (0x10c8e, 0x10cce), (0x10c8f, 0x10ccf), (0x10c90, 0x10cd0), (0x10c91, 0x10cd1),
  (0x10c92, 0x10cd2), (0x10c93, 0x10cd3), (0x10c94, 0x10cd4), (0x10c95, 0x10cd5), (0x10c96, 0x10cd6),
  (0x10c97, 0x10cd7), (0x10c98, 0x10cd8), (0x10c99, 0x10cd9), (0x10c9a, 0x10cda), (0x10c9b, 0x10cdb),
  (0x10c9c, 0x10cdc), (0x10c9d, 0x10cdd), (0x10c9e, 0x10cde), (0x10c9f, 0x10cdf), (0x10ca0, 0x10ce0),
  (0x10ca1, 0x10ce1), (0x10ca2, 0x10ce2), (0x10ca3, 0x10ce3), (0x10ca4, 0x10ce4), (0x10ca5, 0x10ce5),
  (0x10ca6, 0x10ce6), (0x10ca7, 0x10ce7), (0x10ca8, 0x10ce8), (0x10ca9, 0x10ce9), (0x10caa, 0x10cea),
  (0x10cab, 0x10ceb), (0x10cac, 0x10cec), (0x10cad, 0x10ced), (0x10cae, 0x10cee), (0x10caf, 0x10cef),
  (0x10cb0, 0x10cf0), (0x10cb1, 0x10cf1), (0x10cb2, 0x10cf2), (0x118a0, 0x118c0), (0x118a1, 0x118c1),
  (0x118a2, 0x118c2), (0x118a3, 0x118c3), (0x118a4, 0x118c4), (0x118a5, 0x118c5), (0x118a6, 0x118c6),
  (0x118a7, 0x118c7), (0x118a8, 0x118c8), (0x118a9, 0x118c9), (0x118aa, 0x118ca), (0x118ab, 0x118cb),
  (0x118ac, 0x118cc), (0x118ad, 0x118cd), (0x118ae, 0x118ce), (0x118af, 0x118cf), (0x118b0, 0x118d0),
  (0x118b1, 0x118d1), (0x118b2, 0x118d2), (0x118b3, 0x118d3), (0x118b4, 0x118d4), (0x118b5, 0x118d5),
  (0x118b6, 0x118d6), (0x118b7, 0x118d7), (0x118b8, 0x118d8), (0x118b9, 0x118d9), (0x118ba, 0x118da),
  (0x118bb, 0x118db), (0x118bc, 0x118dc), (0x118bd, 0x118dd), (0x118be, 0x118de), (0x118bf, 0x118df),
  (0x16e40, 0x16e60), (0x16e41, 0x16e61), (0x16e42, 0x16e62), (0x16e43, 0x16e63), (0x16e44, 0x16e64),
  (0x16e45, 0x16e65), (0x16e46, 0x16e66), (0x16e47, 0x16e67), (0x16e48, 0x16e68), (0x16e49, 0x16e69),
  (0x16e4a, 0x16e6a), (0x16e4b, 0x16e6b), (0x16e4c, 0x16e6c), (0x16e4d, 0x16e6d), (0x16e4e, 0x16e6e),
  (0x16e4f, 0x16e6f), (0x16e50, 0x16e70), (0x16e51, 0x16e71), (0x16e52, 0x16e72), (0x16e53, 0x16e73),
  (0x16e54, 0x16e74), (0x16e55, 0x16e75), (0x16e56, 0x16e76), (0x16e57, 0x16e77), (0x16e58, 0x16e78),
  (0x16e59, 0x16e79), (0x16e5a, 0x16e7a), (0x16e5b, 0x16e7b), (0x16e5c, 0x16e7c), (0x16e5d, 0x16e7d),
  (0x16e5e, 0x16e7e), (0x16e5f, 0x16e7f), (0x1e900, 0x1e922), (0x1e901, 0x1e923), (0x1e902, 0x1e924),
  (0x1e903, 0x1e925), (0x1e904, 0x1e926), (0x1e905, 0x1e927), (0x1e906, 0x1e928), (0x1e907, 0x1e929),
  (0x1e908, 0x1e92a), (0x1e909, 0x1e92b), (0x1e90a, 0x1e92c), (0x1e90b, 0x1e92d), (0x1e90c, 0x1e92e),
  (0x1e90d, 0x1e92f), (0x1e90e, 0x1e930), (0x1e90f, 0x1e931), (0x1e910, 0x1e932), (0x1e911, 0x1e933),
  (0x1e912, 0x1e934), (0x1e913, 0x1e935), (0x1e914, 0x1e936), (0x1e915, 0x1e937), (0x1e916, 0x1e938),
  (0x1e917, 0x1e939), (0x1e918, 0x1e93a), (0x1e919, 0x1e93b), (0x1e91a, 0x1e93c), (0x1e91b, 0x1e93d),
  (0x1e91c, 0x1e93e), (0x1e91d, 0x1e93f), (0x1e91e, 0x1e940), (0x1e91f, 0x1e941), (0x1e920, 0x1e942),
  (0x1e921, 0x1e943)]

set_option maxHeartbeats 1600000 in
/-- Ranges of the Case_Ignorable code points (CPython
`_PyUnicode_IsCaseIgnorable`), which the Final_Sigma scan skips. -/
def caseIgnorableRanges : List (Nat × Nat) := [
  (0x27, 0x27), (0x2e, 0x2e), (0x3a, 0x3a), (0x5e, 0x5e), (0x60, 0x60), (0xa8, 0xa8),
  (0xad, 0xad), (0xaf, 0xaf), (0xb4, 0xb4), (0xb7, 0xb8), (0x2b0, 0x36f), (0x374, 0x375),
  (0x37a, 0x37a), (0x384, 0x385), (0x387, 0x387), (0x483, 0x489), (0x559, 0x559), (0x55f, 0x55f),
  (0x591, 0x5bd), (0x5bf, 0x5bf), (0x5c1, 0x5c2), (0x5c4, 0x5c5), (0x5c7, 0x5c7), (0x5f4, 0x5f4),
  (0x600, 0x605), (0x610, 0x61a), (0x61c, 0x61c), (0x640, 0x640), (0x64b, 0x65f), (0x670, 0x670),
  (0x6d6, 0x6dd), (0x6df, 0x6e8), (0x6ea, 0x6ed), (0x70f, 0x70f), (0x711, 0x711), (0x730, 0x74a),
  (0x7a6, 0x7b0), (0x7eb, 0x7f5), (0x7fa, 0x7fa), (0x7fd, 0x7fd), (0x816, 0x82d), (0x859, 0x85b),
  (0x888, 0x888), (0x890, 0x891), (0x898, 0x89f), (0x8c9, 0x902), (0x93a, 0x93a), (0x93c, 0x93c),
  (0x941, 0x948), (0x94d, 0x94d), (0x951, 0x957), (0x962, 0x963), (0x971, 0x971), (0x981, 0x981),
  (0x9bc, 0x9bc), (0x9c1, 0x9c4), (0x9cd, 0x9cd), (0x9e2, 0x9e3), (0x9fe, 0x9fe), (0xa01, 0xa02),
  (0xa3c, 0xa3c), (0xa41, 0xa42), (0xa47, 0xa48), (0xa4b, 0xa4d), (0xa51, 0xa51), (0xa70, 0xa71),
  (0xa75, 0xa75), (0xa81, 0xa82), (0xabc, 0xabc), (0xac1, 0xac5), (0xac7, 0xac8), (0xacd, 0xacd),
  (0xae2, 0xae3), (0xafa, 0xaff), (0xb01, 0xb01), (0xb3c, 0xb3c), (0xb3f, 0xb3f), (0xb41, 0xb44),
  (0xb4d, 0xb4d), (0xb55, 0xb56), (0xb62, 0xb63), (0xb82, 0xb82), (0xbc0, 0xbc0), (0xbcd, 0xbcd),
  (0xc00, 0xc00), (0xc04, 0xc04), (0xc3c, 0xc3c), (0xc3e, 0xc40), (0xc46, 0xc48), (0xc4a, 0xc4d),
  (0xc55, 0xc56), (0xc62, 0xc63), (0xc81, 0xc81), (0xcbc, 0xcbc), (0xcbf, 0xcbf), (0xcc6, 0xcc6),
  (0xccc, 0xccd), (0xce2, 0xce3), (0xd00, 0xd01), (0xd3b, 0xd3c), (0xd41, 0xd44), (0xd4d, 0xd4d),
  (0xd62, 0xd63), (0xd81, 0xd81), (0xdca, 0xdca), (0xdd2, 0xdd4), (0xdd6, 0xdd6), (0xe31, 0xe31),
  (0xe34, 0xe3a), (0xe46, 0xe4e), (0xeb1, 0xeb1), (0xeb4, 0xebc), (0xec6, 0xec6), (0xec8, 0xecd),
  (0xf18, 0xf19), (0xf35, 0xf35), (0xf37, 0xf37), (0xf39, 0xf39), (0xf71, 0xf7e), (0xf80, 0xf84),
  (0xf86, 0xf87), (0xf8d, 0xf97), (0xf99, 0xfbc), (0xfc6, 0xfc6), (0x102d, 0x1030), (0x1032, 0x1037),
  (0x1039, 0x103a), (0x103d, 0x103e), (0x1058, 0x1059), (0x105e, 0x1060), (0x1071, 0x1074), (0x1082, 0x1082),
  (0x1085, 0x1086), (0x108d, 0x108d), (0x109d, 0x109d), (0x10fc, 0x10fc), (0x135d, 0x135f), (0x1712, 0x1714),
  (0x1732, 0x1733), (0x1752, 0x1753), (0x1772, 0x1773), (0x17b4, 0x17b5), (0x17b7, 0x17bd), (0x17c6, 0x17c6),
  (0x17c9, 0x17d3), (0x17d7, 0x17d7), (0x17dd, 0x17dd), (0x180b, 0x180f), (0x1843, 0x1843), (0x1885, 0x1886),
  (0x18a9, 0x18a9), (0x1920, 0x1922), (0x1927, 0x1928), (0x1932, 0x1932), (0x1939, 0x193b), (0x1a17, 0x1a18),
  (0x1a1b, 0x1a1b), (0x1a56, 0x1a56), (0x1a58, 0x1a5e), (0x1a60, 0x1a60), (0x1a62, 0x1a62), (0x1a65, 0x1a6c),
  (0x1a73, 0x1a7c), (0x1a7f, 0x1a7f), (0x1aa7, 0x1aa7), (0x1ab0, 0x1ace), (0x1b00, 0x1b03), (0x1b34, 0x1b34),
  (0x1b36, 0x1b3a), (0x1b3c, 0x1b3c), (0x1b42, 0x1b42), (0x1b6b, 0x1b73), (0x1b80, 0x1b81), (0x1ba2, 0x1ba5),
  (0x1ba8, 0x1ba9), (0x1bab, 0x1bad), (0x1be6, 0x1be6), (0x1be8, 0x1be9), (0x1bed, 0x1bed), (0x1bef, 0x1bf1),
  (0x1c2c, 0x1c33), (0x1c36, 0x1c37), (0x1c78, 0x1c7d), (0x1cd0, 0x1cd2), (0x1cd4, 0x1ce0), (0x1ce2, 0x1ce8),
  (0x1ced, 0x1ced), (0x1cf4, 0x1cf4), (0x1cf8, 0x1cf9), (0x1d2c, 0x1d6a), (0x1d78, 0x1d78), (0x1d9b, 0x1dff),
  (0x1fbd, 0x1fbd), (0x1fbf, 0x1fc1), (0x1fcd, 0x1fcf), (0x1fdd, 0x1fdf), (0x1fed, 0x1fef), (0x1ffd, 0x1ffe),
  (0x200b, 0x200f), (0x2018, 0x2019), (0x2024, 0x2024), (0x2027, 0x2027), (0x202a, 0x202e), (0x2060, 0x2064),
  (0x2066, 0x206f), (0x2071, 0x2071), (0x207f, 0x207f), (0x2090, 0x209c), (0x20d0, 0x20f0), (0x2c7c, 0x2c7d),
  (0x2cef, 0x2cf1), (0x2d6f, 0x2d6f), (0x2d7f, 0x2d7f), (0x2de0, 0x2dff), (0x2e2f, 0x2e2f), (0x3005, 0x3005),
  (0x302a, 0x302d), (0x3031, 0x3035), (0x303b, 0x303b), (0x3099, 0x309e), (0x30fc, 0x30fe), (0xa015, 0xa015),
  (0xa4f8, 0xa4fd), (0xa60c, 0xa60c), (0xa66f, 0xa672), (0xa674, 0xa67d), (0xa67f, 0xa67f), (0xa69c, 0xa69f),
  (0xa6f0, 0xa6f1), (0xa700, 0xa721), (0xa770, 0xa770), (0xa788, 0xa78a), (0xa7f2, 0xa7f4), (0xa7f8, 0xa7f9),
  (0xa802, 0xa802), (0xa806, 0xa806), (0xa80b, 0xa80b), (0xa825, 0xa826), (0xa82c, 0xa82c), (0xa8c4, 0xa8c5),
  (0xa8e0, 0xa8f1), (0xa8ff, 0xa8ff), (0xa926, 0xa92d), (0xa947, 0xa951), (0xa980, 0xa982), (0xa9b3, 0xa9b3),
  (0xa9b6, 0xa9b9), (0xa9bc, 0xa9bd), (0xa9cf, 0xa9cf), (0xa9e5, 0xa9e6), (0xaa29, 0xaa2e), (0xaa31, 0xaa32),
  (0xaa35, 0xaa36), (0xaa43, 0xaa43), (0xaa4c, 0xaa4c), (0xaa70, 0xaa70), (0xaa7c, 0xaa7c), (0xaab0, 0xaab0),
  (0xaab2, 0xaab4), (0xaab7, 0xaab8), (0xaabe, 0xaabf), (0xaac1, 0xaac1), (0xaadd, 0xaadd), (0xaaec, 0xaaed),
  (0xaaf3, 0xaaf4), (0xaaf6, 0xaaf6), (0xab5b, 0xab5f), (0xab69, 0xab6b), (0xabe5, 0xabe5), (0xabe8, 0xabe8),
  (0xabed, 0xabed), (0xfb1e, 0xfb1e), (0xfbb2, 0xfbc2), (0xfe00, 0xfe0f), (0xfe13, 0xfe13), (0xfe20, 0xfe2f),
  (0xfe52, 0xfe52), (0xfe55, 0xfe55), (0xfeff, 0xfeff), (0xff07, 0xff07), (0xff0e, 0xff0e), (0xff1a, 0xff1a),
  (0xff3e, 0xff3e), (0xff40, 0xff40), (0xff70, 0xff70), (0xff9e, 0xff9f), (0xffe3, 0xffe3), (0xfff9, 0xfffb),
  (0x101fd, 0x101fd), (0x102e0, 0x102e0), (0x10376, 0x1037a), (0x10780, 0x10785), (0x10787, 0x107b0), (0x107b2, 0x107ba),
  (0x10a01, 0x10a03), (0x10a05, 0x10a06), (0x10a0c, 0x10a0f), (0x10a38, 0x10a3a), (0x10a3f, 0x10a3f), (0x10ae5, 0x10ae6),
  (0x10d24, 0x10d27), (0x10eab, 0x10eac), (0x10f46, 0x10f50), (0x10f82, 0x10f85), (0x11001, 0x11001), (0x11038, 0x11046),
  (0x11070, 0x11070), (0x11073, 0x11074), (0x1107f, 0x11081), (0x110b3, 0x110b6), (0x110b9, 0x110ba), (0x110bd, 0x110bd),
  (0x110c2, 0x110c2), (0x110cd, 0x110cd), (0x11100, 0x11102), (0x11127, 0x1112b), (0x1112d, 0x11134), (0x11173, 0x11173),
  (0x11180, 0x11181), (0x111b6, 0x111be), (0x111c9, 0x111cc), (0x111cf, 0x111cf), (0x1122f, 0x11231), (0x11234, 0x11234),
  (0x11236, 0x11237), (0x1123e, 0x1123e), (0x112df, 0x112df), (0x112e3, 0x112ea), (0x11300, 0x11301), (0x1133b, 0x1133c),
  (0x11340, 0x11340), (0x11366, 0x1136c), (0x11370, 0x11374), (0x11438, 0x1143f), (0x11442, 0x11444), (0x11446, 0x11446),
  (0x1145e, 0x1145e), (0x114b3, 0x114b8), (0x114ba, 0x114ba), (0x114bf, 0x114c0), (0x114c2, 0x114c3), (0x115b2, 0x115b5),
  (0x115bc, 0x115bd), (0x115bf, 0x115c0), (0x115dc, 0x115dd), (0x11633, 0x1163a), (0x1163d, 0x1163d), (0x1163f, 0x11640),
  (0x116ab, 0x116ab), (0x116ad, 0x116ad), (0x116b0, 0x116b5), (0x116b7, 0x116b7), (0x1171d, 0x1171f), (0x11722, 0x11725),
  (0x11727, 0x1172b), (0x1182f, 0x11837), (0x11839, 0x1183a), (0x1193b, 0x1193c), (0x1193e, 0x1193e), (0x11943, 0x11943),
  (0x119d4, 0x119d7), (0x119da, 0x119db), (0x119e0, 0x119e0), (0x11a01, 0x11a0a), (0x11a33, 0x11a38), (0x11a3b, 0x11a3e),
  (0x11a47, 0x11a47), (0x11a51, 0x11a56), (0x11a59, 0x11a5b), (0x11a8a, 0x11a96), (0x11a98, 0x11a99), (0x11c30, 0x11c36),
  (0x11c38, 0x11c3d), (0x11c3f, 0x11c3f), (0x11c92, 0x11ca7), (0x11caa, 0x11cb0), (0x11cb2, 0x11cb3), (0x11cb5, 0x11cb6),
  (0x11d31, 0x11d36), (0x11d3a, 0x11d3a), (0x11d3c, 0x11d3d), (0x11d3f, 0x11d45), (0x11d47, 0x11d47), (0x11d90, 0x11d91),
  (0x11d95, 0x11d95), (0x11d97, 0x11d97), (0x11ef3, 0x11ef4), (0x13430, 0x13438), (0x16af0, 0x16af4), (0x16b30, 0x16b36),
  (0x16b40, 0x16b43), (0x16f4f, 0x16f4f), (0x16f8f, 0x16f9f), (0x16fe0, 0x16fe1), (0x16fe3, 0x16fe4), (0x1aff0, 0x1aff3),
  (0x1aff5, 0x1affb), (0x1affd, 0x1affe), (0x1bc9d, 0x1bc9e), (0x1bca0, 0x1bca3), (0x1cf00, 0x1cf2d), (0x1cf30, 0x1cf46),
  (0x1d167, 0x1d169), (0x1d173, 0x1d182), (0x1d185, 0x1d18b), (0x1d1aa, 0x1d1ad), (0x1d242, 0x1d244), (0x1da00, 0x1da36),
  (0x1da3b, 0x1da6c), (0x1da75, 0x1da75), (0x1da84, 0x1da84), (0x1da9b, 0x1da9f), (0x1daa1, 0x1daaf), (0x1e000, 0x1e006),
  (0x1e008, 0x1e018), (0x1e01b, 0x1e021), (0x1e023, 0x1e024), (0x1e026, 0x1e02a), (0x1e130, 0x1e13d), (0x1e2ae, 0x1e2ae),
  (0x1e2ec, 0x1e2ef), (0x1e8d0, 0x1e8d6), (0x1e944, 0x1e94b), (0x1f3fb, 0x1f3ff), (0xe0001, 0xe0001), (0xe0020, 0xe007f),
  (0xe0100, 0xe01ef)]

set_option maxHeartbeats 1600000 in
/-- Ranges of the Cased code points that are not Case_Ignorable: the only
characters whose casedness the `handle_capital_sigma` scan can consult,
since it skips every Case_Ignorable character. -/
def casedRanges : List (Nat × Nat) := [
  (0x41, 0x5a), (0x61, 0x7a), (0xaa, 0xaa), (0xb5, 0xb5), (0xba, 0xba), (0xc0, 0xd6),
  (0xd8, 0xf6), (0xf8, 0x1ba), (0x1bc, 0x1bf), (0x1c4, 0x293), (0x295, 0x2af), (0x370, 0x373),
  (0x376, 0x377), (0x37b, 0x37d), (0x37f, 0x37f), (0x386, 0x386), (0x388, 0x38a), (0x38c, 0x38c),
  (0x38e, 0x3a1), (0x3a3, 0x3f5), (0x3f7, 0x481), (0x48a, 0x52f), (0x531, 0x556), (0x560, 0x588),
  (0x10a0, 0x10c5), (0x10c7, 0x10c7), (0x10cd, 0x10cd), (0x10d0, 0x10fa), (0x10fd, 0x10ff), (0x13a0, 0x13f5),
  (0x13f8, 0x13fd), (0x1c80, 0x1c88), (0x1c90, 0x1cba), (0x1cbd, 0x1cbf), (0x1d00, 0x1d2b), (0x1d6b, 0x1d77),
  (0x1d79, 0x1d9a), (0x1e00, 0x1f15), (0x1f18, 0x1f1d), (0x1f20, 0x1f45), (0x1f48, 0x1f4d), (0x1f50, 0x1f57),
  (0x1f59, 0x1f59), (0x1f5b, 0x1f5b), (0x1f5d, 0x1f5d), (0x1f5f, 0x1f7d), (0x1f80, 0x1fb4), (0x1fb6, 0x1fbc),
  (0x1fbe, 0x1fbe), (0x1fc2, 0x1fc4), (0x1fc6, 0x1fcc), (0x1fd0, 0x1fd3), (0x1fd6, 0x1fdb), (0x1fe0, 0x1fec),
  (0x1ff2, 0x1ff4), (0x1ff6, 0x1ffc), (0x2102, 0x2102), (0x2107, 0x2107), (0x210a, 0x2113), (0x2115, 0x2115),
  (0x2119, 0x211d), (0x2124, 0x2124), (0x2126, 0x2126), (0x2128, 0x2128), (0x212a, 0x212d), (0x212f, 0x2134),
  (0x2139, 0x2139), (0x213c, 0x213f), (0x2145, 0x2149), (0x214e, 0x214e), (0x2160, 0x217f), (0x2183, 0x2184),
  (0x24b6, 0x24e9), (0x2c00, 0x2c7b), (0x2c7e, 0x2ce4), (0x2ceb, 0x2cee), (0x2cf2, 0x2cf3), (0x2d00, 0x2d25),
  (0x2d27, 0x2d27), (0x2d2d, 0x2d2d), (0xa640, 0xa66d), (0xa680, 0xa69b), (0xa722, 0xa76f), (0xa771, 0xa787),
  (0xa78b, 0xa78e), (0xa790, 0xa7ca), (0xa7d0, 0xa7d1), (0xa7d3, 0xa7d3), (0xa7d5, 0xa7d9), (0xa7f5, 0xa7f6),
  (0xa7fa, 0xa7fa), (0xab30, 0xab5a), (0xab60, 0xab68), (0xab70, 0xabbf), (0xfb00, 0xfb06), (0xfb13, 0xfb17),
  (0xff21, 0xff3a), (0xff41, 0xff5a), (0x10400, 0x1044f), (0x104b0, 0x104d3), (0x104d8, 0x104fb), (0x10570, 0x1057a),
  (0x1057c, 0x1058a), (0x1058c, 0x10592), (0x10594, 0x10595), (0x10597, 0x105a1), (0x105a3, 0x105b1), (0x105b3, 0x105b9),
  (0x105bb, 0x105bc), (0x10c80, 0x10cb2), (0x10cc0, 0x10cf2), (0x118a0, 0x118df), (0x16e40, 0x16e7f), (0x1d400, 0x1d454),
  (0x1d456, 0x1d49c), (0x1d49e, 0x1d49f), (0x1d4a2, 0x1d4a2), (0x1d4a5, 0x1d4a6), (0x1d4a9, 0x1d4ac), (0x1d4ae, 0x1d4b9),
  (0x1d4bb, 0x1d4bb), (0x1d4bd, 0x1d4c3), (0x1d4c5, 0x1d505), (0x1d507, 0x1d50a), (0x1d50d, 0x1d514), (0x1d516, 0x1d51c),
  (0x1d51e, 0x1d539), (0x1d53b, 0x1d53e), (0x1d540, 0x1d544), (0x1d546, 0x1d546), (0x1d54a, 0x1d550), (0x1d552, 0x1d6a5),
  (0x1d6a8, 0x1d6c0), (0x1d6c2, 0x1d6da), (0x1d6dc, 0x1d6fa), (0x1d6fc, 0x1d714), (0x1d716, 0x1d734), (0x1d736, 0x1d74e),
  (0x1d750, 0x1d76e), (0x1d770, 0x1d788), (0x1d78a, 0x1d7a8), (0x1d7aa, 0x1d7c2), (0x1d7c4, 0x1d7cb), (0x1df00, 0x1df09),
  (0x1df0b, 0x1df1e), (0x1e900, 0x1e943), (0x1f130, 0x1f149), (0x1f150, 0x1f169), (0x1f170, 0x1f189)]

def isCaseIgnorableCp (n : Nat) : Bool :=
  caseIgnorableRanges.any (fun p => decide (p.1 ≤ n) && decide (n ≤ p.2))

def isCasedCp (n : Nat) : Bool :=
  casedRanges.any (fun p => decide (p.1 ≤ n) && decide (n ≤ p.2))

/-- Python `str.lower()` image of one character, before the sigma context
rule (CPython `_PyUnicode_ToLowerFull`, with the ASCII range inlined). -/
def toLowerFull (c : Char) : List Char :=
  if c.toNat ≤ 0x7f then
    if 0x41 ≤ c.toNat && c.toNat ≤ 0x5a then [Char.ofNat (c.toNat + 0x20)] else [c]
  else if c.toNat = 0x130 then [Char.ofNat 0x69, Char.ofNat 0x307]
  else
    match lowerTable.lookup c.toNat with
    | some m => [Char.ofNat m]
    | none => [c]

/-- CPython `handle_capital_sigma`: U+03A3 lowercases to final sigma U+03C2
exactly when scanning backwards over Case_Ignorable characters reaches a
Cased character, and scanning forwards over Case_Ignorable characters
reaches the end of the string or a non-Cased character.  `prev` is the
reversed prefix of the original string before the sigma, `rest` the suffix
after it. -/
def finalSigma (prev rest : List Char) : Bool :=
  (match prev.dropWhile (fun c => isCaseIgnorableCp c.toNat) with
   | c :: _ => isCasedCp c.toNat
   | [] => false) &&
  (match rest.dropWhile (fun c => isCaseIgnorableCp c.toNat) with
   | c :: _ => !isCasedCp c.toNat
   | [] => true)

/-- CPython `do_lower` over a character list; `prev` accumulates the already
scanned original characters in reverse for the sigma context scan. -/
def lowerAux (prev : List Char) : List Char → List Char
  | [] => []
  | c :: rest =>
    (if c = 'Σ' then
      (if finalSigma prev rest then ['ς'] else ['σ'])
     else toLowerFull c) ++ lowerAux (c :: prev) rest

/-- Model of Python `str.lower()` (full Unicode lowercase mapping including
the Final_Sigma context rule, following CPython `do_lower`). -/
def pylower (s : String) : String := String.mk (lowerAux [] s.toList)

def pystripS (s : String) : String := String.mk (pystrip s.toList)

/-- Python `s[:n]`. -/
def pyTake (n : Nat) (s : String) : String := String.mk (s.toList.take n)

def quoteRepr (s : String) : String := "\x27" ++ s ++ "\x27"

/-- Python `repr` of a list of strings. -/
def pyListRepr (l : List String) : String :=
  "[" ++ String.intercalate ", " (l.map quoteRepr) ++ "]"

/-- Python `repr` of a set of strings; set iteration order is fixed within a
process — modelled here as first-insertion order. -/
def pySetRepr (l : List String) : String :=
  "\x7b" ++ String.intercalate ", " (l.map quoteRepr) ++ "\x7d"

/-! ### Schema models (`schemas/narrative_genesis_schema.py`)

The Pydantic models are mirrored as structures; `Literal[...]` fields are
strings whose membership is enforced by the validators below.  Note that the
`class Config` of `NarrativeGenesisInput` (lines 192-195) configures only
that model; in Pydantic v2 a model's configuration does not propagate to
nested models, and `NarrativeGenesisInput` itself has no `str`-typed field —
so `str_strip_whitespace = True` affects no leaf value. -/

structure ToneGuardrails where
  allowed : List String
  forbidden : List String

structure BrandIdentityCore where
  product_name : String
  archetype : String
  core_philosophy : String
  tone_guardrails : ToneGuardrails

structure TheWorld where
  description : String
  consensus_reality : String

structure TheEnemy where
  name : String
  manifestation : String
  why_fight_it : String

structure TheChangeVehicle where
  what_is_new : String
  mechanism : String

structure ThePromisedLand where
  vision : String
  emotional_payoff : String

structure TransformationThesis where
  from_state : String
  to_state : String

structure StrategicNarrativeFramework where
  comment : Option String
  the_world_status_quo : TheWorld
  the_enemy : TheEnemy
  the_change_vehicle : TheChangeVehicle
  the_promised_land : ThePromisedLand
  transformation_thesis : TransformationThesis
  proof_points : List String

structure BasePersona where
  name : String
  role : String
  demographics : String
  product_relation : String
  social_setting : Option String

structure LoreSeed where
  central_belief : String
  internal_monologue_style : String
  obsession_topics : List String
  affliction : String
  aspiration : String

structure EvolutionParameters where
  autonomy_level : String
  memory_retention : String
  hallucination_permission : String

structure AutonomousCharacterSeed where
  comment : Option String
  base_persona : BasePersona
  lore_seed : LoreSeed
  evolution_parameters : EvolutionParameters

structure LanguageModel where
  slang_whitelist : List String
  cultural_references : List String

structure TargetAudienceContext where
  persona_code : String
  pain_points : List String
  language_model : LanguageModel

structure Meta where
  project_name : String
  version : String
  input_by : String
  timestamp : String

structure NarrativeGenesisInput where
  meta : Meta
  brand_identity_core : BrandIdentityCore
  strategic_narrative_framework : StrategicNarrativeFramework
  autonomous_character_seed : AutonomousCharacterSeed
  target_audience_context : TargetAudienceContext

/-! ### The custom validators of the schema (source lines 16-24, 109-116,
132-141, 158-166, 177-190) -/

/-- ToneGuardrails.check_no_overlap, lines 19-21: the case-insensitive
overlap `set(lower allowed) & set(lower forbidden)`, as a list in
first-insertion order. -/
def overlapOf (allowed forbidden : List String) : List String :=
  ((allowed.map pylower).dedup).filter (fun t => (forbidden.map pylower).contains t)

/-- ToneGuardrails.check_no_overlap (model_validator mode=after),
lines 16-24. -/
def check_no_overlap (tg : ToneGuardrails) : Except String ToneGuardrails :=
  let overlap := overlapOf tg.allowed tg.forbidden
  if overlap.isEmpty then .ok tg
  else .error ("Tone guardrails overlap detected: " ++ pySetRepr overlap
               ++ ". A tone cannot be both allowed and forbidden.")

/-- EvolutionParameters.validate_hallucination, lines 109-116. -/
def validate_hallucination (v : String) : Except String String :=
  let valid_values := ["Allowed", "Not Allowed", "Limited"]
  if !(valid_values.any (fun s => pyIn s v)) then
    .error ("hallucination_permission must contain one of: " ++ pyListRepr valid_values)
  else .ok v

/-- LanguageModel.validate_slang, lines 132-141: the loop raises at the first
offending entry. -/
def validate_slang : List String → Except String Unit
  | [] => .ok ()
  | s :: rest =>
    if s.isEmpty || (pystripS s).isEmpty then
      .error "Slang whitelist cannot contain empty strings"
    else if s.length > 50 then
      .error ("Slang entry too long: " ++ pyTake 30 s ++ "...")
    else validate_slang rest

/-- Replacement `v.replace("Z", "+00:00")` done by Meta.validate_timestamp
(line 163) before the ISO parse. -/
def replaceZ : List Char → List Char
  | [] => []
  | 'Z' :: r => '+' :: '0' :: '0' :: ':' :: '0' :: '0' :: replaceZ r
  | c :: r => c :: replaceZ r

def digit2 : List Char → Option (Nat × List Char)
  | a :: b :: r =>
    if a.isDigit && b.isDigit then some ((a.toNat - 48) * 10 + (b.toNat - 48), r)
    else none
  | _ => none

def digit4 : List Char → Option (Nat × List Char)
  | a :: b :: c :: d :: r =>
    if a.isDigit && b.isDigit && c.isDigit && d.isDigit then
      some (((a.toNat - 48) * 10 + (b.toNat - 48)) * 100
              + (c.toNat - 48) * 10 + (d.toNat - 48), r)
    else none
  | _ => none

def isLeap (y : Nat) : Bool := (y % 4 == 0 && y % 100 != 0) || y % 400 == 0

def daysInMonth (y m : Nat) : Nat :=
  if m = 2 then (if isLeap y then 29 else 28)
  else if m = 4 || m = 6 || m = 9 || m = 11 then 30
  else 31

/-- Optional `:NN` component bounded by `bound`; absent leaves the input
unchanged. -/
def optColonNum (bound : Nat) (l : List Char) : Option (List Char) :=
  match l with
  | ':' :: r =>
    match digit2 r with
    | some (n, r2) => if n ≤ bound then some r2 else none
    | none => none
  | _ => some l

/-- Optional fractional-seconds component `.digits`. -/
def optFrac (l : List Char) : Option (List Char) :=
  match l with
  | '.' :: r =>
    match r with
    | d :: _ => if d.isDigit then some (r.dropWhile Char.isDigit) else none
    | [] => none
  | _ => some l

/-- Trailing UTC-offset component `±HH:MM[:SS[.ffffff]]` (or `±HHMM`),
which must end the input. -/
def offsetEnd (l : List Char) : Bool :=
  match l with
  | [] => true
  | c :: r =>
    if c = '+' || c = '-' then
      match digit2 r with
      | some (oh, r2) =>
        oh ≤ 23 &&
        (match r2 with
         | ':' :: r3 =>
           match digit2 r3 with
           | some (om, r4) =>
             om ≤ 59 &&
             (match optColonNum 59 r4 with
              | some r5 => match optFrac r5 with
                | some [] => true
                | _ => false
              | none => false)
           | none => false
         | r' =>
           match digit2 r' with
           | some (om, r4) => om ≤ 59 && r4.isEmpty
           | none => r'.isEmpty)
      | none => false
    else false

/-- Time-of-day part `HH[:MM[:SS[.f+]]][±offset]`. -/
def timeOk (l : List Char) : Bool :=
  match digit2 l with
  | some (hh, r) =>
    hh ≤ 23 &&
    (match optColonNum 59 r with
     | some r2 =>
       match optColonNum 59 r2 with
       | some r3 =>
         match optFrac r3 with
         | some r4 => offsetEnd r4
         | none => false
       | none => false
     | none => false)
  | none => false

/-- Modelled subset of `datetime.fromisoformat` (Python 3.11+) on
extended-format ISO-8601 strings: `YYYY-MM-DD`, optionally followed by any
single separator character and a time-of-day with optional UTC offset.
Calendar validity (month/day ranges, leap years) is enforced as the real
`datetime` constructor does. -/
def isoOk (l : List Char) : Bool :=
  match digit4 l with
  | some (y, r) =>
    (1 ≤ y) &&
    (match r with
     | '-' :: r2 =>
       match digit2 r2 with
       | some (m, r3) =>
         1 ≤ m && m ≤ 12 &&
         (match r3 with
          | '-' :: r4 =>
            match digit2 r4 with
            | some (d, r5) =>
              1 ≤ d && d ≤ daysInMonth y m &&
              (match r5 with
               | [] => true
               | _ :: tr => timeOk tr)
            | none => false
          | _ => false)
       | none => false
     | _ => false)
  | none => false

/-- Meta.validate_timestamp, lines 158-166. -/
def validate_timestamp (v : String) : Except String String :=
  if isoOk (replaceZ v.toList) then .ok v
  else .error ("Timestamp must be in ISO format: " ++ v)


/-! ### The Pydantic validation pass

`NarrativeValidator.validate_from_dict` calls `NarrativeGenesisInput(**data)`
and converts a raised `ValidationError` into the report's error dicts
(`validator.py` lines 96-143), each carrying the Pydantic error `type`, the
field-path `loc`, the `msg` and the offending `input`.  The embedding below
reproduces Pydantic v2 semantics on this schema: every field of a model is
validated (errors from sibling fields are all collected, in field
declaration order), a `field_validator` runs only once its field's own
checks passed, a `model_validator(mode=after)` runs only once all fields of
its model passed, and nested-model errors are prefixed with the field name. -/

inductive Loc where
  | fld (name : String)
  | idx (i : Nat)
deriving DecidableEq

structure VError where
  type : String
  loc : List Loc
  msg : String
  input : Json

abbrev Dict := List (String × Json)

def dget (d : Dict) (k : String) : Option Json :=
  (d.find? (fun p => p.1 == k)).map (·.2)

def vErr1 (ty name msg : String) (inp : Json) : List VError :=
  [⟨ty, [.fld name], msg, inp⟩]

def prefixErrs (name : String) (es : List VError) : List VError :=
  es.map (fun e => { e with loc := .fld name :: e.loc })

/-- Applicative-style combination collecting errors from both sides. -/
def vmerge : Except (List VError) α → Except (List VError) β → Except (List VError) (α × β)
  | .ok a, .ok b => .ok (a, b)
  | .error e1, .error e2 => .error (e1 ++ e2)
  | .error e1, .ok _ => .error e1
  | .ok _, .error e2 => .error e2

def errsOf : Except (List VError) α → List VError
  | .ok _ => []
  | .error es => es

/-- Required `str` field with no further constraints (the `Meta` fields). -/
def fStr (d : Dict) (parent : Json) (name : String) : Except (List VError) String :=
  match dget d name with
  | none => .error (vErr1 "missing" name "Field required" parent)
  | some (.str s) => .ok s
  | some j => .error (vErr1 "string_type" name "Input should be a valid string" j)

/-- Required `str` field declared with `Field(..., min_length=1)`.  Pydantic
counts the raw characters — no whitespace stripping happens (see the module
docstring note on `Config`). -/
def fStr1 (d : Dict) (parent : Json) (name : String) : Except (List VError) String :=
  match fStr d parent name with
  | .ok s =>
    if 1 ≤ s.length then .ok s
    else .error (vErr1 "string_too_short" name "String should have at least 1 character" (.str s))
  | .error es => .error es

/-- Optional `str` field with default `None`. -/
def fOptStr (d : Dict) (name : String) : Except (List VError) (Option String) :=
  match dget d name with
  | none => .ok none
  | some .null => .ok none
  | some (.str s) => .ok (some s)
  | some j => .error (vErr1 "string_type" name "Input should be a valid string" j)

/-- Required field typed `Literal[...]`. -/
def fLit (d : Dict) (parent : Json) (name : String) (allowed : List String)
    (msg : String) : Except (List VError) String :=
  match dget d name with
  | none => .error (vErr1 "missing" name "Field required" parent)
  | some (.str s) =>
    if allowed.contains s then .ok s
    else .error (vErr1 "literal_error" name msg (.str s))
  | some j => .error (vErr1 "literal_error" name msg j)

/-- Element-wise validation of a `List[str]` value; all offending elements
are reported, with their indices in the path. -/
def elemStrs (name : String) : Nat → List Json → Except (List VError) (List String)
  | _, [] => .ok []
  | i, j :: rest =>
    let head : Except (List VError) String :=
      match j with
      | .str s => .ok s
      | _ => .error [⟨"string_type", [.fld name, .idx i], "Input should be a valid string", j⟩]
    match vmerge head (elemStrs name (i + 1) rest) with
    | .ok (s, ss) => .ok (s :: ss)
    | .error es => .error es

/-- Required `List[str]` field declared with `Field(..., min_length=1)`. -/
def fListStr1 (d : Dict) (parent : Json) (name : String) : Except (List VError) (List String) :=
  match dget d name with
  | none => .error (vErr1 "missing" name "Field required" parent)
  | some (.arr items) =>
    (match elemStrs name 0 items with
     | .ok ss =>
       if 1 ≤ ss.length then .ok ss
       else .error (vErr1 "too_short" name
         "List should have at least 1 item after validation, not 0" (.arr items))
     | .error es => .error es)
  | some j => .error (vErr1 "list_type" name "Input should be a valid list" j)

/-- Required nested-model field: the value must be a mapping, the nested
model's errors are prefixed with the field name. -/
def fModel (d : Dict) (parent : Json) (name modelName : String)
    (sub : Dict → Json → Except (List VError) α) : Except (List VError) α :=
  match dget d name with
  | none => .error (vErr1 "missing" name "Field required" parent)
  | some (.obj fields) =>
    (match sub fields (.obj fields) with
     | .ok a => .ok a
     | .error es => .error (prefixErrs name es))
  | some j => .error (vErr1 "model_type" name
      ("Input should be a valid dictionary or instance of " ++ modelName) j)

/-- Attach a `field_validator` (raising `ValueError`) to a validated field. -/
def withFieldValidator (name : String) (r : Except (List VError) α)
    (f : α → Except String β) : Except (List VError) β :=
  match r with
  | .ok a =>
    (match f a with
     | .ok b => .ok b
     | .error m => .error [⟨"value_error", [.fld name], "Value error, " ++ m, .null⟩])
  | .error es => .error es

def vToneGuardrails (d : Dict) (self : Json) : Except (List VError) ToneGuardrails :=
  match vmerge (fListStr1 d self "allowed") (fListStr1 d self "forbidden") with
  | .ok (a, f) =>
    (match check_no_overlap ⟨a, f⟩ with
     | .ok tg => .ok tg
     | .error m => .error [⟨"value_error", [], "Value error, " ++ m, self⟩])
  | .error es => .error es

def vBrandIdentityCore (d : Dict) (self : Json) : Except (List VError) BrandIdentityCore :=
  match vmerge (vmerge (vmerge
      (fStr1 d self "product_name")
      (fStr1 d self "archetype"))
      (fStr1 d self "core_philosophy"))
      (fModel d self "tone_guardrails" "ToneGuardrails" vToneGuardrails) with
  | .ok (((pn, ar), cp), tg) => .ok ⟨pn, ar, cp, tg⟩
  | .error es => .error es

def vTheWorld (d : Dict) (self : Json) : Except (List VError) TheWorld :=
  match vmerge (fStr1 d self "description") (fStr1 d self "consensus_reality") with
  | .ok (a, b) => .ok ⟨a, b⟩
  | .error es => .error es

def vTheEnemy (d : Dict) (self : Json) : Except (List VError) TheEnemy :=
  match vmerge (vmerge (fStr1 d self "name") (fStr1 d self "manifestation"))
      (fStr1 d self "why_fight_it") with
  | .ok ((a, b), c) => .ok ⟨a, b, c⟩
  | .error es => .error es

def vTheChangeVehicle (d : Dict) (self : Json) : Except (List VError) TheChangeVehicle :=
  match vmerge (fStr1 d self "what_is_new") (fStr1 d self "mechanism") with
  | .ok (a, b) => .ok ⟨a, b⟩
  | .error es => .error es

def vThePromisedLand (d : Dict) (self : Json) : Except (List VError) ThePromisedLand :=
  match vmerge (fStr1 d self "vision") (fStr1 d self "emotional_payoff") with
  | .ok (a, b) => .ok ⟨a, b⟩
  | .error es => .error es

def vTransformationThesis (d : Dict) (self : Json) : Except (List VError) TransformationThesis :=
  match vmerge (fStr1 d self "from_state") (fStr1 d self "to_state") with
  | .ok (a, b) => .ok ⟨a, b⟩
  | .error es => .error es

def vStrategicNarrativeFramework (d : Dict) (self : Json) :
    Except (List VError) StrategicNarrativeFramework :=
  match vmerge (vmerge (vmerge (vmerge (vmerge (vmerge
      (fOptStr d "comment")
      (fModel d self "the_world_status_quo" "TheWorld" vTheWorld))
      (fModel d self "the_enemy" "TheEnemy" vTheEnemy))
      (fModel d self "the_change_vehicle" "TheChangeVehicle" vTheChangeVehicle))
      (fModel d self "the_promised_land" "ThePromisedLand" vThePromisedLand))
      (fModel d self "transformation_thesis" "TransformationThesis" vTransformationThesis))
      (fListStr1 d self "proof_points") with
  | .ok ((((((c, w), e), cv), pl), tt), pp) => .ok ⟨c, w, e, cv, pl, tt, pp⟩
  | .error es => .error es

def productRelationMsg : String :=
  "Input should be \x27The Unaware/Novice\x27, \x27The Skeptic\x27, \x27The Stumbler\x27 or \x27The Convert\x27"

def vBasePersona (d : Dict) (self : Json) : Except (List VError) BasePersona :=
  match vmerge (vmerge (vmerge (vmerge
      (fStr1 d self "name")
      (fStr1 d self "role"))
      (fStr1 d self "demographics"))
      (fLit d self "product_relation"
        ["The Unaware/Novice", "The Skeptic", "The Stumbler", "The Convert"]
        productRelationMsg))
      (fOptStr d "social_setting") with
  | .ok ((((n, r), dm), pr), ss) => .ok ⟨n, r, dm, pr, ss⟩
  | .error es => .error es

def vLoreSeed (d : Dict) (self : Json) : Except (List VError) LoreSeed :=
  match vmerge (vmerge (vmerge (vmerge
      (fStr1 d self "central_belief")
      (fStr1 d self "internal_monologue_style"))
      (fListStr1 d self "obsession_topics"))
      (fStr1 d self "affliction"))
      (fStr1 d self "aspiration") with
  | .ok ((((cb, ims), ot), af), asp) => .ok ⟨cb, ims, ot, af, asp⟩
  | .error es => .error es

def autonomyMsg : String := "Input should be \x27Low\x27, \x27Medium\x27 or \x27High\x27"

def vEvolutionParameters (d : Dict) (self : Json) : Except (List VError) EvolutionParameters :=
  match vmerge (vmerge
      (fLit d self "autonomy_level" ["Low", "Medium", "High"] autonomyMsg)
      (fStr1 d self "memory_retention"))
      (withFieldValidator "hallucination_permission"
        (fStr1 d self "hallucination_permission") validate_hallucination) with
  | .ok ((al, mr), hp) => .ok ⟨al, mr, hp⟩
  | .error es => .error es

def vAutonomousCharacterSeed (d : Dict) (self : Json) :
    Except (List VError) AutonomousCharacterSeed :=
  match vmerge (vmerge (vmerge
      (fOptStr d "comment")
      (fModel d self "base_persona" "BasePersona" vBasePersona))
      (fModel d self "lore_seed" "LoreSeed" vLoreSeed))
      (fModel d self "evolution_parameters" "EvolutionParameters" vEvolutionParameters) with
  | .ok (((c, bp), ls), ep) => .ok ⟨c, bp, ls, ep⟩
  | .error es => .error es

def vLanguageModel (d : Dict) (self : Json) : Except (List VError) LanguageModel :=
  match vmerge
      (withFieldValidator "slang_whitelist" (fListStr1 d self "slang_whitelist")
        (fun sw => match validate_slang sw with
          | .ok _ => .ok sw
          | .error m => .error m))
      (fListStr1 d self "cultural_references") with
  | .ok (sw, cr) => .ok ⟨sw, cr⟩
  | .error es => .error es

def vTargetAudienceContext (d : Dict) (self : Json) :
    Except (List VError) TargetAudienceContext :=
  match vmerge (vmerge
      (fStr1 d self "persona_code")
      (fListStr1 d self "pain_points"))
      (fModel d self "language_model" "LanguageModel" vLanguageModel) with
  | .ok ((pc, pp), lm) => .ok ⟨pc, pp, lm⟩
  | .error es => .error es

def vMeta (d : Dict) (self : Json) : Except (List VError) Meta :=
  match vmerge (vmerge (vmerge
      (fStr d self "project_name")
      (fStr d self "version"))
      (fStr d self "input_by"))
      (withFieldValidator "timestamp" (fStr d self "timestamp") validate_timestamp) with
  | .ok (((pn, v), ib), ts) => .ok ⟨pn, v, ib, ts⟩
  | .error es => .error es

/-- NarrativeGenesisInput.validate_consistency, lines 177-190: the Gen-Z
demographic cross-check computes its condition and then performs no action
(the branch body is `pass`); the validator always returns the input. -/
def validate_consistency (i : NarrativeGenesisInput) :
    Except String NarrativeGenesisInput :=
  let character_demo := pylower i.autonomous_character_seed.base_persona.demographics
  let target_code := pylower i.target_audience_context.persona_code
  if pyIn "genz" target_code || pyIn "gen_z" target_code then
    if !(["24", "23", "25", "26", "gen z", "genz"].any (fun t => pyIn t character_demo)) then
      .ok i
    else .ok i
  else .ok i

/-- Validation of `NarrativeGenesisInput(**data)` (the `try` body of
`validate_from_dict`). -/
def vNGI (d : Dict) : Except (List VError) NarrativeGenesisInput :=
  let self := Json.obj d
  match vmerge (vmerge (vmerge (vmerge
      (fModel d self "meta" "Meta" vMeta)
      (fModel d self "brand_identity_core" "BrandIdentityCore" vBrandIdentityCore))
      (fModel d self "strategic_narrative_framework" "StrategicNarrativeFramework"
        vStrategicNarrativeFramework))
      (fModel d self "autonomous_character_seed" "AutonomousCharacterSeed"
        vAutonomousCharacterSeed))
      (fModel d self "target_audience_context" "TargetAudienceContext"
        vTargetAudienceContext) with
  | .ok ((((m, b), s), a), t) =>
    (match validate_consistency ⟨m, b, s, a, t⟩ with
     | .ok i => .ok i
     | .error m2 => .error [⟨"value_error", [], "Value error, " ++ m2, self⟩])
  | .error es => .error es

/-- The structured validation report built by `validate_from_dict`
(`validator.py` lines 96-143): valid with data, or invalid with the
collected error dicts. -/
structure ValidationReport where
  is_valid : Bool
  errors : List VError
  data : Option NarrativeGenesisInput

def validate_from_dict (d : Dict) : ValidationReport :=
  match vNGI d with
  | .ok i => ⟨true, [], some i⟩
  | .error es => ⟨false, es, none⟩

/-- NarrativeValidator._perform_business_logic_checks, lines 145-175: the
non-blocking advisory warnings printed alongside a valid report. -/
def business_logic_checks (i : NarrativeGenesisInput) : List String :=
  let archetype := pylower i.brand_identity_core.archetype
  let allowed_tones := i.brand_identity_core.tone_guardrails.allowed.map pylower
  let w1 : List String :=
    if pyIn "rebel" archetype then
      (if !(allowed_tones.any (fun tone => ["sarcastic", "raw", "unfiltered"].contains tone)) then
        ["Archetype is \x27Rebel\x27 but tone doesn\x27t include rebellious characteristics"]
      else [])
    else []
  let proof_points := i.strategic_narrative_framework.proof_points
  let w2 : List String :=
    if proof_points.any (fun point => point.length < 20) then
      ["Some proof points seem too short - consider adding more detail"]
    else []
  let demo := i.autonomous_character_seed.base_persona.demographics
  let pain_points := i.target_audience_context.pain_points
  let w3 : List String :=
    if pain_points.any (fun p => pyIn "gaji" (pylower p) || pyIn "salary" (pylower p)) then
      (if !(["gaji", "salary", "umr", "debt"].any (fun term => pyIn term (pylower demo))) then
        ["Target audience has salary pain points but character demographics don\x27t mention income/debt"]
      else [])
    else []
  w1 ++ w2 ++ w3

/-- The mutable `NarrativeValidator` object: its only state is
`last_report`. -/
structure NarrativeValidator where
  last_report : Option ValidationReport

/-- One call of `NarrativeValidator.validate_from_dict`, returning the
report and the updated object state. -/
def validator_run (_v : NarrativeValidator) (d : Dict) :
    ValidationReport × NarrativeValidator :=
  let r := validate_from_dict d
  (r, ⟨some r⟩)


/-! ### Concrete documents used by the claims about the validator -/

/-- A fully valid Narrative Genesis Input document. -/
def baseDoc : Dict := [
  ("meta", .obj [("project_name", .str "Sleep Rebellion"), ("version", .str "2.1.0"),
                 ("input_by", .str "strategist"), ("timestamp", .str "2025-01-15T10:30:00Z")]),
  ("brand_identity_core", .obj [("product_name", .str "Somnia"), ("archetype", .str "The Rebel"),
    ("core_philosophy", .str "Rest is resistance"),
    ("tone_guardrails", .obj [("allowed", .arr [.str "sarcastic", .str "raw"]),
                              ("forbidden", .arr [.str "corporate"])])]),
  ("strategic_narrative_framework", .obj [
    ("the_world_status_quo", .obj [("description", .str "Hustle culture rules"),
                                   ("consensus_reality", .str "Sleep is for the weak")]),
    ("the_enemy", .obj [("name", .str "Grind Culture"),
                        ("manifestation", .str "Endless productivity demands"),
                        ("why_fight_it", .str "It burns people out")]),
    ("the_change_vehicle", .obj [("what_is_new", .str "A sleep-first ritual system"),
                                 ("mechanism", .str "Evening wind-down protocols")]),
    ("the_promised_land", .obj [("vision", .str "Rested rebels thriving"),
                                ("emotional_payoff", .str "Calm confidence")]),
    ("transformation_thesis", .obj [("from_state", .str "Exhausted and anxious"),
                                    ("to_state", .str "Rested and defiant")]),
    ("proof_points", .arr [.str "Users report deeper sleep within two weeks"])]),
  ("autonomous_character_seed", .obj [
    ("base_persona", .obj [("name", .str "Luna"), ("role", .str "Night guide"),
                           ("demographics", .str "26, urban, gen z creative"),
                           ("product_relation", .str "The Convert")]),
    ("lore_seed", .obj [("central_belief", .str "Rest fuels rebellion"),
                        ("internal_monologue_style", .str "Wry and tender"),
                        ("obsession_topics", .arr [.str "circadian rhythms"]),
                        ("affliction", .str "Old burnout scars"),
                        ("aspiration", .str "A world that naps")]),
    ("evolution_parameters", .obj [("autonomy_level", .str "Medium"),
                                   ("memory_retention", .str "Remembers recurring dreams"),
                                   ("hallucination_permission", .str "Limited")])]),
  ("target_audience_context", .obj [
    ("persona_code", .str "GENZ_BURNOUT"), ("pain_points", .arr [.str "Chronic exhaustion"]),
    ("language_model", .obj [("slang_whitelist", .arr [.str "fr"]),
                             ("cultural_references", .arr [.str "lofi playlists"])])])]

/-- Brand section with `product_name` absent and a case-insensitive tone
overlap. -/
def brandC4 : List (String × Json) :=
  [("archetype", .str "The Rebel"),
   ("core_philosophy", .str "Rest is resistance"),
   ("tone_guardrails", .obj [("allowed", .arr [.str "Funny"]),
                             ("forbidden", .arr [.str "funny"])])]

/-- Character section with an invalid `autonomy_level`. -/
def acsC4 : List (String × Json) :=
  [("base_persona", .obj [("name", .str "Luna"), ("role", .str "Night guide"),
                          ("demographics", .str "26, urban, gen z creative"),
                          ("product_relation", .str "The Convert")]),
   ("lore_seed", .obj [("central_belief", .str "Rest fuels rebellion"),
                       ("internal_monologue_style", .str "Wry and tender"),
                       ("obsession_topics", .arr [.str "circadian rhythms"]),
                       ("affliction", .str "Old burnout scars"),
                       ("aspiration", .str "A world that naps")]),
   ("evolution_parameters", .obj [("autonomy_level", .str "Extreme"),
                                  ("memory_retention", .str "Remembers recurring dreams"),
                                  ("hallucination_permission", .str "Limited")])]

/-- Document with three independent schema violations: missing
`product_name`, a tone overlap, and an invalid `autonomy_level`. -/
def docC4 : Dict :=
  ("meta", Json.obj [("project_name", .str "Sleep Rebellion"), ("version", .str "2.1.0"),
                     ("input_by", .str "strategist"), ("timestamp", .str "2025-01-15T10:30:00Z")]) ::
  ("brand_identity_core", Json.obj brandC4) ::
  (baseDoc.drop 2).take 1 ++
  [("autonomous_character_seed", Json.obj acsC4)] ++
  baseDoc.drop 4

/-- Document with an empty `meta.project_name`, a whitespace-only
`meta.input_by` and a whitespace-only `product_name`. -/
def docC6 : Dict :=
  ("meta", Json.obj [("project_name", .str ""), ("version", .str "2.1.0"),
                     ("input_by", .str "   "), ("timestamp", .str "2025-01-15T10:30:00Z")]) ::
  ("brand_identity_core", Json.obj [("product_name", .str "   "), ("archetype", .str "The Rebel"),
    ("core_philosophy", .str "Rest is resistance"),
    ("tone_guardrails", .obj [("allowed", .arr [.str "sarcastic", .str "raw"]),
                              ("forbidden", .arr [.str "corporate"])])]) ::
  baseDoc.drop 2

/-- Predicate for the recovery post-condition: a JSON object with all of
`pillar2`, `pillar3`, `pillar4`. -/
def hasPillarKeys (j : Json) : Bool :=
  match j with
  | .obj f => hasKey f "pillar2" && hasKey f "pillar3" && hasKey f "pillar4"
  | _ => false

/-- Modelled from the claim (C10): acceptance by containment of only the two
literals `Allowed` and `Limited`, to be compared with the source's
three-literal check. -/
def twoLiteralAccept (v : String) : Bool :=
  pyIn "Allowed" v || pyIn "Limited" v

/-- A repair function that always fails; the claims using it never reach the
repair stages. -/
def jrepairFail : List Char → Except String Json := fun _ => .error "repair failed"

/-- Strict JSON with exactly the three pillar keys whose `pillar2` string
literal contains a comma directly followed by a closing brace — the pattern
the trailing-comma substitution deletes even inside string literals. -/
def c3bad : List Char :=
  "\x7b\"pillar2\": \"a,\x7d\", \"pillar3\": 1, \"pillar4\": 2\x7d".toList

/-- The strict parse of `c3bad`. -/
def c3badFields : List (String × Json) :=
  [("pillar2", .str "a,\x7d"), ("pillar3", .num ['1']), ("pillar4", .num ['2'])]

/-- A comma-pattern-free strict JSON pillars object with surrounding
whitespace. -/
def c3ws : List Char :=
  "  \x7b\"pillar2\": 1, \"pillar3\": true, \"pillar4\": null\x7d\n".toList

/-- The strict parse of `c3ws`. -/
def c3wsFields : List (String × Json) :=
  [("pillar2", .num ['1']), ("pillar3", .bool true), ("pillar4", .null)]


/-! ### Helper lemmas -/

theorem validate_consistency_eq (i : NarrativeGenesisInput) :
    validate_consistency i = .ok i := by
  simp only [validate_consistency]
  split_ifs <;> rfl

theorem errsOf_ok (a : α) : errsOf (Except.ok a : Except (List VError) α) = [] := rfl

theorem errsOf_error (es : List VError) :
    errsOf (Except.error es : Except (List VError) α) = es := rfl

theorem checkPillars_ok_iff (p v : Json) :
    checkPillars p = .ok v ↔ (hasPillarKeys p = true ∧ v = p) := by
  cases p
  case obj f =>
    cases h2 : hasKey f "pillar2" <;> cases h3 : hasKey f "pillar3" <;>
      cases h4 : hasKey f "pillar4" <;>
      simp [checkPillars, hasPillarKeys, h2, h3, h4, eq_comm]
  all_goals simp [checkPillars, hasPillarKeys]

theorem hasPillarKeys_isObj (v : Json) (h : hasPillarKeys v = true) :
    v.isObj = true := by
  cases v <;> simp_all [hasPillarKeys, Json.isObj]

/-! ### Claims -/

/-- C9.  Validation is a deterministic, idempotent function of its input:
running `NarrativeValidator.validate_from_dict` a second time on the same
dictionary (threading the validator's `last_report` state) returns a report
with the identical validity flag, the identical error list in the same
order, and the identical validated data, and leaves the validator in the
identical state. -/
theorem validation_deterministic_idempotent (v0 : NarrativeValidator) (d : Dict) :
    (validator_run (validator_run v0 d).2 d).1 = (validator_run v0 d).1 ∧
    (validator_run (validator_run v0 d).2 d).2 = (validator_run v0 d).2 ∧
    (validator_run (validator_run v0 d).2 d).1.is_valid = (validator_run v0 d).1.is_valid ∧
    (validator_run (validator_run v0 d).2 d).1.errors = (validator_run v0 d).1.errors ∧
    (validator_run (validator_run v0 d).2 d).1.data = (validator_run v0 d).1.data :=
  ⟨rfl, rfl, rfl, rfl, rfl⟩

/-- C4.  Validation aggregates instead of failing fast: for every input
dictionary the report's error list is the concatenation of the errors of the
five top-level sections, each computed independently of the others; and on
the concrete document with three independent violations (missing
`product_name`, tone overlap, invalid `autonomy_level`) the report is
invalid and contains exactly the three corresponding structured errors, each
with its kind, field path, message and offending value. -/
theorem aggregate_error_collection :
    (∀ d : Dict,
      (validate_from_dict d).errors =
        errsOf (fModel d (Json.obj d) "meta" "Meta" vMeta) ++
        errsOf (fModel d (Json.obj d) "brand_identity_core" "BrandIdentityCore"
          vBrandIdentityCore) ++
        errsOf (fModel d (Json.obj d) "strategic_narrative_framework"
          "StrategicNarrativeFramework" vStrategicNarrativeFramework) ++
        errsOf (fModel d (Json.obj d) "autonomous_character_seed"
          "AutonomousCharacterSeed" vAutonomousCharacterSeed) ++
        errsOf (fModel d (Json.obj d) "target_audience_context"
          "TargetAudienceContext" vTargetAudienceContext)) ∧
    (validate_from_dict docC4).is_valid = false ∧
    (validate_from_dict docC4).errors =
      [⟨"missing", [.fld "brand_identity_core", .fld "product_name"], "Field required",
         .obj brandC4⟩,
       ⟨"value_error", [.fld "brand_identity_core", .fld "tone_guardrails"],
         "Value error, Tone guardrails overlap detected: \x7b\x27funny\x27\x7d. A tone cannot be both allowed and forbidden.",
         .obj [("allowed", .arr [.str "Funny"]), ("forbidden", .arr [.str "funny"])]⟩,
       ⟨"literal_error",
         [.fld "autonomous_character_seed", .fld "evolution_parameters", .fld "autonomy_level"],
         autonomyMsg, .str "Extreme"⟩] := by
  refine ⟨fun d => ?_, by rfl, by rfl⟩
  show (validate_from_dict d).errors = _
  unfold validate_from_dict vNGI
  cases h1 : fModel d (Json.obj d) "meta" "Meta" vMeta <;>
  cases h2 : fModel d (Json.obj d) "brand_identity_core" "BrandIdentityCore"
    vBrandIdentityCore <;>
  cases h3 : fModel d (Json.obj d) "strategic_narrative_framework"
    "StrategicNarrativeFramework" vStrategicNarrativeFramework <;>
  cases h4 : fModel d (Json.obj d) "autonomous_character_seed"
    "AutonomousCharacterSeed" vAutonomousCharacterSeed <;>
  cases h5 : fModel d (Json.obj d) "target_audience_context"
    "TargetAudienceContext" vTargetAudienceContext <;>
  simp [h1, h2, h3, h4, h5, vmerge, errsOf, validate_consistency_eq]

/-- C6 (counterexample).  The claim "every required string leaf — including
the `Meta` fields — is trimmed and rejected when empty or whitespace-only"
is false on the code: the document `docC6`, whose `meta.project_name` is the
empty string, whose `meta.input_by` is whitespace-only and whose
`product_name` is whitespace-only, validates successfully, and the validated
data retains the untrimmed values. -/
theorem blank_fields_accepted_counterexample :
    (validate_from_dict docC6).is_valid = true ∧
    (validate_from_dict docC6).data.map (fun i => i.meta.project_name) = some "" ∧
    (validate_from_dict docC6).data.map (fun i => i.meta.input_by) = some "   " ∧
    (validate_from_dict docC6).data.map (fun i => i.brand_identity_core.product_name)
      = some "   " :=
  ⟨rfl, rfl, rfl, rfl⟩

/-- C6 (amended).  No whitespace trimming is applied on ingestion (values
are kept verbatim); a required string field of `Meta` (`project_name`,
`version`, `input_by`) accepts any string, including the empty one; a
required string field declared with `min_length=1` rejects exactly the empty
string, so whitespace-only values are accepted there as well. -/
theorem min_length_fields_reject_only_empty :
    (∀ (d : Dict) (parent : Json) (name s : String),
      dget d name = some (.str s) → fStr d parent name = .ok s) ∧
    (∀ (d : Dict) (parent : Json) (name s : String),
      dget d name = some (.str s) →
        fStr1 d parent name =
          if 1 ≤ s.length then .ok s
          else .error (vErr1 "string_too_short" name
            "String should have at least 1 character" (.str s))) ∧
    (validate_from_dict docC6).is_valid = true ∧
    (validate_from_dict docC6).data.map (fun i => i.meta.project_name) = some "" ∧
    (validate_from_dict docC6).data.map (fun i => i.brand_identity_core.product_name)
      = some "   " := by
  refine ⟨fun d parent name s h => ?_, fun d parent name s h => ?_, rfl, rfl, rfl⟩
  · simp [fStr, h]
  · simp [fStr1, fStr, h]

/-- Closed witness for `min_length_fields_reject_only_empty`: the empty
string is accepted verbatim for a plain required string field. -/
theorem min_length_fields_reject_only_empty_witness :
    dget [("x", Json.str "")] "x" = some (.str "") ∧
    fStr [("x", Json.str "")] Json.null "x" = .ok "" :=
  ⟨rfl, min_length_fields_reject_only_empty.1 [("x", Json.str "")] Json.null "x" "" rfl⟩

/-- C1.  The recovery operation succeeds only with a JSON object carrying
all three pillar keys: every `ok` outcome of `recover` is an object with
`pillar2`, `pillar3` and `pillar4`; a non-object recovered value yields the
"not a JSON object" error; an object missing one of the keys yields an
error naming the first missing key (in the order pillar2, pillar3, pillar4);
and the check succeeds precisely on objects with all three keys, returned
unchanged — there is no partial-success outcome. -/
theorem recovery_postcondition :
    (∀ (jr : List Char → Except String Json) (c : RawContent) (v : Json),
      recover jr c = .ok v → v.isObj = true ∧ hasPillarKeys v = true) ∧
    (∀ p : Json, p.isObj = false →
      checkPillars p = .error .notObject ∧
      RecErr.notObject.message = "Parsed pillars response is not a JSON object.") ∧
    (∀ f : List (String × Json),
      (hasKey f "pillar2" = false →
        checkPillars (.obj f) = .error (.missingKey "pillar2")) ∧
      (hasKey f "pillar2" = true → hasKey f "pillar3" = false →
        checkPillars (.obj f) = .error (.missingKey "pillar3")) ∧
      (hasKey f "pillar2" = true → hasKey f "pillar3" = true → hasKey f "pillar4" = false →
        checkPillars (.obj f) = .error (.missingKey "pillar4"))) ∧
    (∀ k : String, (RecErr.missingKey k).message
      = "Missing \x27" ++ k ++ "\x27 in pillars response.") ∧
    (∀ p v : Json, checkPillars p = .ok v ↔ (hasPillarKeys p = true ∧ v = p)) := by
  refine ⟨?_, ?_, ?_, fun k => rfl, checkPillars_ok_iff⟩
  · intro jr c v h
    have hck : ∃ p, checkPillars p = .ok v := by
      cases c with
      | dict fields => exact ⟨.obj fields, h⟩
      | text s =>
        simp only [recover] at h
        cases hps : parseStages jr (preprocess s) with
        | ok p => rw [hps] at h; exact ⟨p, h⟩
        | error e => rw [hps] at h; exact absurd h (by simp)
    obtain ⟨p, hp⟩ := hck
    obtain ⟨hkeys, hv⟩ := (checkPillars_ok_iff p v).mp hp
    subst hv
    exact ⟨hasPillarKeys_isObj _ hkeys, hkeys⟩
  · intro p h
    refine ⟨?_, rfl⟩
    cases p <;> simp_all [checkPillars, Json.isObj]
  · intro f
    refine ⟨fun h2 => ?_, fun h2 h3 => ?_, fun h2 h3 h4 => ?_⟩
    · simp [checkPillars, h2]
    · simp [checkPillars, h2, h3]
    · simp [checkPillars, h2, h3, h4]

/-- Closed witness for `recovery_postcondition`: a successful recovery of a
three-key object, and the rejection of a JSON array. -/
theorem recovery_postcondition_witness :
    recover (fun _ => .error "") (.dict [("pillar2", .null), ("pillar3", .null),
      ("pillar4", .null)]) = .ok (.obj [("pillar2", .null), ("pillar3", .null),
      ("pillar4", .null)]) ∧
    (Json.obj [("pillar2", .null), ("pillar3", .null), ("pillar4", .null)]).isObj = true ∧
    (Json.arr []).isObj = false ∧
    checkPillars (Json.arr []) = .error .notObject :=
  ⟨rfl,
   (recovery_postcondition.1 (fun _ => .error "")
     (.dict [("pillar2", .null), ("pillar3", .null), ("pillar4", .null)])
     (.obj [("pillar2", .null), ("pillar3", .null), ("pillar4", .null)]) rfl).1,
   rfl,
   (recovery_postcondition.2.1 (Json.arr []) rfl).1⟩


theorem substrOf_iff (n h : List Char) :
    substrOf n h = true ↔ ∃ a b, h = a ++ n ++ b := by
  unfold substrOf
  rw [List.any_eq_true]
  constructor
  · rintro ⟨i, -, hpre⟩
    rw [List.isPrefixOf_iff_prefix] at hpre
    obtain ⟨t, ht⟩ := hpre
    exact ⟨h.take i, t, by rw [List.append_assoc, ht, List.take_append_drop]⟩
  · rintro ⟨a, b, rfl⟩
    refine ⟨a.length, ?_, ?_⟩
    · rw [List.mem_range]
      simp [List.length_append]
      omega
    · rw [List.append_assoc, List.drop_left, List.isPrefixOf_iff_prefix]
      exact ⟨b, rfl⟩

theorem overlapOf_mem (a f : List String) (t : String) :
    t ∈ overlapOf a f ↔ ((∃ x ∈ a, pylower x = t) ∧ (∃ y ∈ f, pylower y = t)) := by
  unfold overlapOf
  simp [List.mem_filter, List.mem_dedup, List.mem_map, List.elem_iff]

theorem validate_hallucination_ok_iff (v : String) :
    (∃ w, validate_hallucination v = .ok w) ↔
      (["Allowed", "Not Allowed", "Limited"].any (fun s => pyIn s v) = true) := by
  by_cases hany : (["Allowed", "Not Allowed", "Limited"].any (fun s => pyIn s v) = true)
  · simp [validate_hallucination, hany]
  · simp only [Bool.not_eq_true] at hany
    simp [validate_hallucination, hany]

theorem pyIn_notAllowed_allowed (v : String) :
    pyIn "Not Allowed" v = true → pyIn "Allowed" v = true := by
  intro hna
  rw [pyIn, substrOf_iff] at hna ⊢
  obtain ⟨a, b, hab⟩ := hna
  refine ⟨a ++ "Not ".toList, b, ?_⟩
  have hsplit : ("Not Allowed".toList : List Char) = "Not ".toList ++ "Allowed".toList := rfl
  rw [hab, hsplit]
  simp [List.append_assoc]

/-- C2.  The tone-guardrail overlap rule is a hard validation error, never a
warning: the computed overlap contains exactly the strings that occur
case-insensitively in both `allowed` and `forbidden`; whenever some string
appears (case-insensitively) in both lists, `check_no_overlap` fails with
the overlap-reporting error message; when the case-insensitive sets are
disjoint this check passes; and the advisory (non-blocking) warning channel
only ever carries the three fixed warning messages, none of which concerns
tone overlap. -/
theorem tone_overlap_hard_error :
    (∀ (a f : List String) (t : String),
      t ∈ overlapOf a f ↔ ((∃ x ∈ a, pylower x = t) ∧ (∃ y ∈ f, pylower y = t))) ∧
    (∀ a f : List String, (∃ x ∈ a, ∃ y ∈ f, pylower x = pylower y) →
      overlapOf a f ≠ [] ∧
      check_no_overlap ⟨a, f⟩ =
        .error ("Tone guardrails overlap detected: " ++ pySetRepr (overlapOf a f)
                ++ ". A tone cannot be both allowed and forbidden.")) ∧
    (∀ a f : List String, (∀ x ∈ a, ∀ y ∈ f, pylower x ≠ pylower y) →
      check_no_overlap ⟨a, f⟩ = .ok ⟨a, f⟩) ∧
    (∀ (i : NarrativeGenesisInput) (w : String), w ∈ business_logic_checks i →
      w ∈ ["Archetype is \x27Rebel\x27 but tone doesn\x27t include rebellious characteristics",
           "Some proof points seem too short - consider adding more detail",
           "Target audience has salary pain points but character demographics don\x27t mention income/debt"]) := by
  refine ⟨overlapOf_mem, ?_, ?_, ?_⟩
  · rintro a f ⟨x, hx, y, hy, hxy⟩
    have hmem : pylower x ∈ overlapOf a f :=
      (overlapOf_mem a f (pylower x)).mpr ⟨⟨x, hx, rfl⟩, ⟨y, hy, hxy.symm⟩⟩
    have hne : overlapOf a f ≠ [] := List.ne_nil_of_mem hmem
    refine ⟨hne, ?_⟩
    simp only [check_no_overlap]
    rw [if_neg (by simp [List.isEmpty_iff, hne])]
  · intro a f hdisj
    have hnil : overlapOf a f = [] := by
      rw [List.eq_nil_iff_forall_not_mem]
      intro t ht
      obtain ⟨⟨x, hx, hxt⟩, ⟨y, hy, hyt⟩⟩ := (overlapOf_mem a f t).mp ht
      exact hdisj x hx y hy (hxt.trans hyt.symm)
    simp [check_no_overlap, hnil]
  · intro i w hw
    simp only [business_logic_checks, List.mem_append] at hw
    rcases hw with (hw | hw) | hw <;> revert hw <;> split_ifs <;> simp_all

set_option maxRecDepth 16384 in
/-- Closed witness for `tone_overlap_hard_error`: the pair
`allowed = ["Funny"]`, `forbidden = ["funny"]` overlaps case-insensitively
and is rejected with the overlap-reporting error, and so does the non-ASCII
pair `allowed = ["Ä"]`, `forbidden = ["ä"]`, whose overlap only the
full Unicode lowercase mapping detects. -/
theorem tone_overlap_hard_error_witness :
    (∃ x ∈ ["Funny"], ∃ y ∈ ["funny"], pylower x = pylower y) ∧
    check_no_overlap ⟨["Funny"], ["funny"]⟩ =
      .error ("Tone guardrails overlap detected: " ++ pySetRepr (overlapOf ["Funny"] ["funny"])
              ++ ". A tone cannot be both allowed and forbidden.") ∧
    (∃ x ∈ ["Ä"], ∃ y ∈ ["ä"], pylower x = pylower y) ∧
    check_no_overlap ⟨["Ä"], ["ä"]⟩ =
      .error ("Tone guardrails overlap detected: "
              ++ pySetRepr (overlapOf ["Ä"] ["ä"])
              ++ ". A tone cannot be both allowed and forbidden.") :=
  ⟨⟨"Funny", by decide, "funny", by decide, by decide⟩,
   (tone_overlap_hard_error.2.1 ["Funny"] ["funny"]
     ⟨"Funny", by decide, "funny", by decide, by decide⟩).2,
   ⟨"Ä", by decide, "ä", by decide, by decide⟩,
   (tone_overlap_hard_error.2.1 ["Ä"] ["ä"]
     ⟨"Ä", by decide, "ä", by decide, by decide⟩).2⟩

/-- C5.  For every non-empty `hallucination_permission` value, the validator
accepts exactly when the value contains one of the literal substrings
`Allowed`, `Not Allowed` or `Limited`; in particular
`"Allowed, but only for dystopian outcomes"` is accepted and
`"Sometimes maybe"` is rejected. -/
theorem hallucination_substring_rule :
    (∀ v : String, v ≠ "" →
      ((∃ w, validate_hallucination v = .ok w) ↔
        ((∃ a b, v.toList = a ++ "Allowed".toList ++ b) ∨
         (∃ a b, v.toList = a ++ "Not Allowed".toList ++ b) ∨
         (∃ a b, v.toList = a ++ "Limited".toList ++ b)))) ∧
    validate_hallucination "Allowed, but only for dystopian outcomes"
      = .ok "Allowed, but only for dystopian outcomes" ∧
    validate_hallucination "Sometimes maybe"
      = .error ("hallucination_permission must contain one of: "
          ++ pyListRepr ["Allowed", "Not Allowed", "Limited"]) := by
  refine ⟨fun v _ => ?_, rfl, rfl⟩
  rw [validate_hallucination_ok_iff]
  simp [List.any_eq_true, pyIn, substrOf_iff]

/-- Closed witness for `hallucination_substring_rule`: the non-empty value
`"Allowed"` is accepted. -/
theorem hallucination_substring_rule_witness :
    ("Allowed" : String) ≠ "" ∧ (∃ w, validate_hallucination "Allowed" = .ok w) :=
  ⟨by decide,
   (hallucination_substring_rule.1 "Allowed" (by decide)).mpr (Or.inl ⟨[], [], rfl⟩)⟩

/-- C10.  The three-literal acceptance check of `validate_hallucination` is
extensionally the two-literal check "contains `Allowed` or contains
`Limited`" (because `"Not Allowed"` itself contains `"Allowed"`), and the
check is case-sensitive: `"allowed"` (lower case) is rejected even though it
contains the lower-case word. -/
theorem hallucination_two_literal_equiv :
    (∀ v : String, (∃ w, validate_hallucination v = .ok w) ↔ twoLiteralAccept v = true) ∧
    pyIn "Allowed" "Not Allowed" = true ∧
    validate_hallucination "allowed"
      = .error ("hallucination_permission must contain one of: "
          ++ pyListRepr ["Allowed", "Not Allowed", "Limited"]) ∧
    pyIn "allowed" "allowed" = true := by
  refine ⟨fun v => ?_, by decide, rfl, by decide⟩
  rw [validate_hallucination_ok_iff]
  simp only [twoLiteralAccept, List.any_eq_true, Bool.or_eq_true]
  constructor
  · rintro ⟨s, hs, hin⟩
    simp only [List.mem_cons, List.mem_singleton] at hs
    rcases hs with rfl | rfl | rfl | h
    · exact Or.inl hin
    · exact Or.inl (pyIn_notAllowed_allowed v hin)
    · exact Or.inr hin
    · exact absurd h (List.not_mem_nil s)
  · rintro (h | h)
    · exact ⟨"Allowed", by simp, h⟩
    · exact ⟨"Limited", by simp, h⟩


/-- C8 (counterexample).  The claim "the exhaustion error carries the error
of the last repair attempt actually made" is false on the code: for the
payload `"x{y}"` (strict parse fails, whole-string repair fails with error
`"x{y}"`, the brace substring `"{y}"` is found and its repair fails with
error `"{y}"`), the raised error carries the whole-string repair error
`"x{y}"`, not the error `"{y}"` of the substring attempt that was actually
made last. -/
theorem exhaustion_error_counterexample :
    recover (fun l => .error (String.mk l)) (.text "x\x7by\x7d".toList)
      = .error (.parseRepairFailed strictErrMsg "x\x7by\x7d") ∧
    extractBraces (preprocess "x\x7by\x7d".toList) = some "\x7by\x7d".toList ∧
    (fun l => (Except.error (String.mk l) : Except String Json)) "\x7by\x7d".toList
      = .error "\x7by\x7d" ∧
    ("x\x7by\x7d" : String) ≠ "\x7by\x7d" :=
  ⟨rfl, rfl, rfl, by decide⟩

/-- C8 (amended).  When all recovery stages fail — strict parse fails, the
whole-string lenient repair fails, and the brace-substring stage either
finds no substring or its repair also fails — recovery raises a single
error carrying the original strict-parse error together with the error of
the whole-string repair stage (even when a substring repair attempt was made
afterwards and failed, it is the whole-string repair error that is
carried). -/
theorem exhaustion_error_carries_whole_repair_error
    (jr : List Char → Except String Json) (s : List Char) (e2 : String)
    (hparse : parse (preprocess s) = none)
    (hjr : jr (preprocess s) = .error e2)
    (hsub : extractBraces (preprocess s) = none ∨
      (∃ sub e3, extractBraces (preprocess s) = some sub ∧ jr sub = .error e3)) :
    recover jr (.text s) = .error (.parseRepairFailed strictErrMsg e2) := by
  simp only [recover, parseStages, hparse, hjr]
  rcases hsub with hnone | ⟨sub, e3, hsome, hjr3⟩
  · rw [hnone]
  · rw [hsome]
    simp [hjr3]

/-- Closed witness for `exhaustion_error_carries_whole_repair_error`, at the
payload `"x{y}"` with a repair stub that reports its input as the error. -/
theorem exhaustion_error_carries_whole_repair_error_witness :
    parse (preprocess "x\x7by\x7d".toList) = none ∧
    (fun l => (Except.error (String.mk l) : Except String Json))
      (preprocess "x\x7by\x7d".toList) = .error "x\x7by\x7d" ∧
    recover (fun l => .error (String.mk l)) (.text "x\x7by\x7d".toList)
      = .error (.parseRepairFailed strictErrMsg "x\x7by\x7d") :=
  ⟨rfl, rfl,
   exhaustion_error_carries_whole_repair_error (fun l => .error (String.mk l))
     "x\x7by\x7d".toList "x\x7by\x7d" rfl rfl
     (Or.inr ⟨"\x7by\x7d".toList, "\x7by\x7d", rfl, rfl⟩)⟩


/-! ### List lemmas about stripping and fence shapes -/

theorem dropWhile_append_all {p : Char → Bool} (u v : List Char)
    (hu : ∀ c ∈ u, p c = true) :
    List.dropWhile p (u ++ v) = List.dropWhile p v := by
  induction u with
  | nil => rfl
  | cons c u' ih =>
    have hc : p c = true := hu c (by simp)
    simp only [List.cons_append, List.dropWhile_cons, hc, if_pos]
    exact ih (fun x hx => hu x (by simp [hx]))

theorem dropWhile_append_ne {p : Char → Bool} (u v : List Char)
    (hu : List.dropWhile p u ≠ []) :
    List.dropWhile p (u ++ v) = List.dropWhile p u ++ v := by
  induction u with
  | nil => exact absurd rfl hu
  | cons c u' ih =>
    by_cases hc : p c = true
    · simp only [List.cons_append, List.dropWhile_cons, hc, if_pos]
      simp only [List.dropWhile_cons, hc, if_pos] at hu
      exact ih hu
    · have hc' : p c = false := by revert hc; cases p c <;> simp
      simp [List.dropWhile_cons, hc']

theorem lstripPy_cons_nonws (c : Char) (l : List Char) (hc : isPyWs c = false) :
    lstripPy (c :: l) = c :: l := by
  simp [lstripPy, List.dropWhile_cons, hc]

theorem rstripPy_append_ws (x w : List Char) (hw : ∀ c ∈ w, isPyWs c = true) :
    rstripPy (x ++ w) = rstripPy x := by
  unfold rstripPy
  rw [List.reverse_append, dropWhile_append_all w.reverse x.reverse
    (fun c hc => hw c (List.mem_reverse.mp hc))]

theorem rstripPy_append_keep (x b : List Char) (hb : rstripPy b ≠ []) :
    rstripPy (x ++ b) = x ++ rstripPy b := by
  have hb' : List.dropWhile isPyWs b.reverse ≠ [] := by
    intro h
    apply hb
    unfold rstripPy
    rw [h]
    rfl
  unfold rstripPy
  rw [List.reverse_append, dropWhile_append_ne b.reverse x.reverse hb',
    List.reverse_append, List.reverse_reverse]

theorem dropWhile_ne_newline (g rest : List Char) (hg : ∀ c ∈ g, c ≠ '\n') :
    List.dropWhile (fun c => c != '\n') (g ++ '\n' :: rest) = '\n' :: rest := by
  induction g with
  | nil => simp [List.dropWhile_cons]
  | cons c g' ih =>
    have hc : (c != '\n') = true := bne_iff_ne.mpr (hg c (by simp))
    rw [List.cons_append, List.dropWhile_cons, if_pos hc]
    exact ih (fun x hx => hg x (by simp [hx]))

theorem afterFirstNewline_fence (f rest : List Char) (hf : ∀ c ∈ f, c ≠ '\n') :
    afterFirstNewline (['`', '`', '`'] ++ f ++ '\n' :: rest) = rest := by
  have hmem : '\n' ∈ (['`', '`', '`'] ++ f ++ '\n' :: rest) := by simp
  have hcontains : (['`', '`', '`'] ++ f ++ '\n' :: rest).contains '\n' = true :=
    List.elem_iff.mpr hmem
  have hg : ∀ c ∈ ('`' :: '`' :: '`' :: f), c ≠ '\n' := by
    intro c hc
    rcases List.mem_cons.mp hc with rfl | hc
    · decide
    rcases List.mem_cons.mp hc with rfl | hc
    · decide
    rcases List.mem_cons.mp hc with rfl | hc
    · decide
    · exact hf c hc
  have hshape : (['`', '`', '`'] ++ f ++ '\n' :: rest)
      = ('`' :: '`' :: '`' :: f) ++ '\n' :: rest := by simp
  rw [afterFirstNewline, if_pos hcontains, hshape,
    dropWhile_ne_newline ('`' :: '`' :: '`' :: f) rest hg]
  rfl

theorem endsWithFence_append (x : List Char) :
    endsWithFence (x ++ ['\n', '`', '`', '`']) = true := by
  unfold endsWithFence
  rw [List.reverse_append]
  rfl

theorem dropLast3_append (x : List Char) :
    dropLast3 (x ++ ['\n', '`', '`', '`']) = x ++ ['\n'] := by
  unfold dropLast3
  rw [List.reverse_append]
  show ('\n' :: x.reverse).reverse = x ++ ['\n']
  rw [List.reverse_cons, List.reverse_reverse]

theorem parse_nil : parse ([] : List Char) = none := rfl


/-- C7.  Fence + trailing-comma recovery: for every payload made of a
leading code-fence line (three backticks and any newline-free label), a JSON
object text containing the three pillar keys but with a trailing comma
before a closing bracket (so that it parses strictly once the trailing
commas are removed), and an optional closing fence line, recovery succeeds:
the first line and the trailing fence are stripped, the trailing comma
removed, and the strict parse of the repaired text is returned. -/
theorem fence_trailing_comma_recovery :
    (∀ (jr : List Char → Except String Json) (f b : List Char) (v : Json),
      (∀ c ∈ f, c ≠ '\n') →
      hasCommaPat b = true →
      hasPillarKeys v = true →
      parse (removeTrailingCommas (pystrip b)) = some v →
      recover jr (.text (['`', '`', '`'] ++ f ++ ['\n'] ++ b ++ ['\n', '`', '`', '`']))
        = .ok v) ∧
    (∀ (jr : List Char → Except String Json) (f b : List Char) (v : Json),
      (∀ c ∈ f, c ≠ '\n') →
      hasCommaPat b = true →
      hasPillarKeys v = true →
      endsWithFence (rstripPy b) = false →
      parse (removeTrailingCommas (rstripPy b)) = some v →
      recover jr (.text (['`', '`', '`'] ++ f ++ ['\n'] ++ b)) = .ok v) := by
  constructor
  · intro jr f b v hf _hcomma hkeys hparse
    have hassoc : (['`', '`', '`'] ++ f ++ ['\n'] ++ b ++ ['\n', '`', '`', '`'] : List Char)
        = (['`', '`', '`'] ++ f ++ ['\n'] ++ b) ++ ['\n', '`', '`', '`'] := by
      simp [List.append_assoc]
    have hrtail : rstripPy ['\n', '`', '`', '`'] = ['\n', '`', '`', '`'] := by decide
    have hr : rstripPy (['`', '`', '`'] ++ f ++ ['\n'] ++ b ++ ['\n', '`', '`', '`'])
        = ['`', '`', '`'] ++ f ++ ['\n'] ++ b ++ ['\n', '`', '`', '`'] := by
      rw [hassoc, rstripPy_append_keep _ _ (by rw [hrtail]; simp), hrtail]
    have hcons : (['`', '`', '`'] ++ f ++ ['\n'] ++ b ++ ['\n', '`', '`', '`'] : List Char)
        = '`' :: ('`' :: '`' :: (f ++ ['\n'] ++ b ++ ['\n', '`', '`', '`'])) := by
      simp [List.append_assoc]
    have hp : pystrip (['`', '`', '`'] ++ f ++ ['\n'] ++ b ++ ['\n', '`', '`', '`'])
        = ['`', '`', '`'] ++ f ++ ['\n'] ++ b ++ ['\n', '`', '`', '`'] := by
      show lstripPy (rstripPy _) = _
      rw [hr, hcons, lstripPy_cons_nonws _ _ (by decide)]
    have hafn : afterFirstNewline ('`' :: '`' :: '`' :: (f ++ ['\n'] ++ b ++ ['\n', '`', '`', '`']))
        = b ++ ['\n', '`', '`', '`'] := by
      have hsh : ('`' :: '`' :: '`' :: (f ++ ['\n'] ++ b ++ ['\n', '`', '`', '`']) : List Char)
          = ['`', '`', '`'] ++ f ++ '\n' :: (b ++ ['\n', '`', '`', '`']) := by
        simp [List.append_assoc]
      rw [hsh, afterFirstNewline_fence f _ hf]
    have hbn : pystrip (b ++ ['\n']) = pystrip b := by
      unfold pystrip
      rw [rstripPy_append_ws b ['\n'] (by intro c hc; simp at hc; subst hc; decide)]
    have hfs : fenceStrip (['`', '`', '`'] ++ f ++ ['\n'] ++ b ++ ['\n', '`', '`', '`'])
        = pystrip b := by
      rw [hcons]
      simp only [fenceStrip]
      rw [hafn, endsWithFence_append, if_pos rfl, dropLast3_append, hbn]
    have hcv : checkPillars v = .ok v := (checkPillars_ok_iff v v).mpr ⟨hkeys, rfl⟩
    simp only [recover, parseStages, preprocess, hp, hfs, hparse, hcv]
  · intro jr f b v hf _hcomma hkeys hnofence hparse
    have hbne : rstripPy b ≠ [] := by
      intro h0
      rw [h0, show removeTrailingCommas ([] : List Char) = [] from rfl, parse_nil] at hparse
      exact Option.noConfusion hparse
    have hassoc : (['`', '`', '`'] ++ f ++ ['\n'] ++ b : List Char)
        = (['`', '`', '`'] ++ f ++ ['\n']) ++ b := by
      simp [List.append_assoc]
    have hr : rstripPy (['`', '`', '`'] ++ f ++ ['\n'] ++ b)
        = ['`', '`', '`'] ++ f ++ ['\n'] ++ rstripPy b := by
      rw [hassoc, rstripPy_append_keep _ _ hbne]
    have hcons : (['`', '`', '`'] ++ f ++ ['\n'] ++ rstripPy b : List Char)
        = '`' :: ('`' :: '`' :: (f ++ ['\n'] ++ rstripPy b)) := by
      simp [List.append_assoc]
    have hp : pystrip (['`', '`', '`'] ++ f ++ ['\n'] ++ b)
        = ['`', '`', '`'] ++ f ++ ['\n'] ++ rstripPy b := by
      show lstripPy (rstripPy _) = _
      rw [hr, hcons, lstripPy_cons_nonws _ _ (by decide)]
    have hafn : afterFirstNewline ('`' :: '`' :: '`' :: (f ++ ['\n'] ++ rstripPy b))
        = rstripPy b := by
      have hsh : ('`' :: '`' :: '`' :: (f ++ ['\n'] ++ rstripPy b) : List Char)
          = ['`', '`', '`'] ++ f ++ '\n' :: rstripPy b := by
        simp [List.append_assoc]
      rw [hsh, afterFirstNewline_fence f _ hf]
    have hfs : fenceStrip (['`', '`', '`'] ++ f ++ ['\n'] ++ rstripPy b)
        = rstripPy b := by
      rw [hcons]
      simp only [fenceStrip]
      rw [hafn, hnofence]
      rfl
    have hcv : checkPillars v = .ok v := (checkPillars_ok_iff v v).mpr ⟨hkeys, rfl⟩
    simp only [recover, parseStages, preprocess, hp, hfs, hparse, hcv]

/-- Closed witness for `fence_trailing_comma_recovery`: a fenced payload with
a trailing comma before the closing brace recovers to the three-key
object. -/
theorem fence_trailing_comma_recovery_witness :
    recover (fun _ => .error "")
      (.text (['`', '`', '`'] ++ "json".toList ++ ['\n']
        ++ "\x7b\"pillar2\": 1, \"pillar3\": 2, \"pillar4\": 3,\x7d".toList
        ++ ['\n', '`', '`', '`']))
      = .ok (.obj [("pillar2", .num ['1']), ("pillar3", .num ['2']),
                   ("pillar4", .num ['3'])]) :=
  fence_trailing_comma_recovery.1 (fun _ => .error "") "json".toList
    "\x7b\"pillar2\": 1, \"pillar3\": 2, \"pillar4\": 3,\x7d".toList
    (.obj [("pillar2", .num ['1']), ("pillar3", .num ['2']), ("pillar4", .num ['3'])])
    (by decide) (by decide) rfl rfl


/-! ### Character-class lemmas for the whitespace set -/

theorem pyWs_mem {c : Char} (h : isPyWs c = true) : c ∈ pyWsChars :=
  List.elem_iff.mp h

theorem pyWs_not_numChar {c : Char} (h : isPyWs c = true) : isNumChar c = false := by
  have hm := pyWs_mem h
  fin_cases hm <;> decide

theorem pyWs_not_hex {c : Char} (h : isPyWs c = true) : isHexDigit c = false := by
  have hm := pyWs_mem h
  fin_cases hm <;> decide

theorem pyWs_no_escape {c : Char} (h : isPyWs c = true) : simpleEscape c = none := by
  have hm := pyWs_mem h
  fin_cases hm <;> decide

theorem pyWs_ne_quote {c : Char} (h : isPyWs c = true) : c ≠ '"' := by
  have hm := pyWs_mem h
  fin_cases hm <;> decide

theorem pyWs_ne_backslash {c : Char} (h : isPyWs c = true) : c ≠ '\\' := by
  have hm := pyWs_mem h
  fin_cases hm <;> decide

theorem pyWs_ne_u {c : Char} (h : isPyWs c = true) : c ≠ 'u' := by
  have hm := pyWs_mem h
  fin_cases hm <;> decide

/-- A whitespace character that is not JSON whitespace stops the tokenizer
dead: none of the token-start branches applies. -/
theorem tokenize_pyws_head {c : Char} (hpy : isPyWs c = true)
    (hjs : isJsonWs c = false) (f : Nat) (l : List Char) :
    tokenize f (c :: l) = none := by
  have hm := pyWs_mem hpy
  cases f with
  | zero => rfl
  | succ f => fin_cases hm <;> first | rfl | (exact absurd hjs (by decide))

theorem tokenize_succ_cons (f : Nat) (c : Char) (rest : List Char) :
    tokenize (f + 1) (c :: rest) = tokStep (tokenize f) c rest := rfl

theorem tokenize_ws_cons {c : Char} (h : isJsonWs c = true) (f : Nat)
    (rest : List Char) :
    tokenize (f + 1) (c :: rest) = tokenize f rest := by
  rw [tokenize_succ_cons, tokStep, if_pos h]


theorem dropPre_le (cs : List Char) : ∀ l r, dropPre cs l = some r → r.length ≤ l.length := by
  induction cs with
  | nil =>
    intro l r h
    simp only [dropPre, Option.some.injEq] at h
    subst h
    exact le_refl _
  | cons c cs' ih =>
    intro l r h
    cases l with
    | nil => exact absurd h (by simp [dropPre])
    | cons x l' =>
      simp only [dropPre] at h
      by_cases hx : x = c
      · rw [if_pos hx] at h
        have := ih l' r h
        simp only [List.length_cons]
        omega
      · rw [if_neg hx] at h
        exact absurd h (by simp)

theorem consResult_eq_some (c : Char) (o : Option (List Char × List Char))
    (s r : List Char) :
    consResult c o = some (s, r) ↔ ∃ s0, o = some (s0, r) ∧ s = c :: s0 := by
  cases o with
  | none => simp [consResult]
  | some p =>
    obtain ⟨s0, r0⟩ := p
    simp only [consResult, Option.some.injEq, Prod.mk.injEq]
    constructor
    · rintro ⟨rfl, rfl⟩
      exact ⟨s0, ⟨rfl, rfl⟩, rfl⟩
    · rintro ⟨s1, ⟨h1, h2⟩, h3⟩
      exact ⟨by rw [h3, h1], h2⟩

theorem lexString_le : ∀ (l s r : List Char), lexString l = some (s, r) → r.length ≤ l.length := by
  intro l
  induction l using lexString.induct <;> intro s r h
  all_goals try unfold lexString at h
  all_goals try simp only [reduceIte] at h
  all_goals repeat split at h
  all_goals try exact Option.noConfusion h
  all_goals try (exact absurd rfl (by assumption))
  all_goals try (
    simp only [Option.some.injEq, Prod.mk.injEq] at h
    obtain ⟨h1, h2⟩ := h
    subst h1
    subst h2
    simp only [List.length_cons]
    omega)
  all_goals try (
    rename (False) => hF
    exact hF.elim)
  all_goals (
    try simp_all only []
    first
    | exact Option.noConfusion h
    | (rw [consResult_eq_some] at h
       obtain ⟨s0, ho, hs⟩ := h
       rename (∀ s r, lexString _ = some (s, r) → _) => ih
       have := ih _ _ ho
       simp only [List.length_cons]
       omega))

theorem takeWhile_append_stop {p : Char → Bool} (u w : List Char)
    (hw : ∀ c, w.head? = some c → p c = false) :
    (u ++ w).takeWhile p = u.takeWhile p := by
  induction u with
  | nil =>
    cases w with
    | nil => rfl
    | cons c w' => simp [List.takeWhile_cons, hw c rfl]
  | cons a u' ih =>
    cases ha : p a with
    | true => simp [List.takeWhile_cons, ha, ih]
    | false => simp [List.takeWhile_cons, ha]

theorem dropWhile_append_stop {p : Char → Bool} (u w : List Char)
    (hw : ∀ c, w.head? = some c → p c = false) :
    (u ++ w).dropWhile p = u.dropWhile p ++ w := by
  induction u with
  | nil =>
    cases w with
    | nil => rfl
    | cons c w' => simp [List.dropWhile_cons, hw c rfl]
  | cons a u' ih =>
    cases ha : p a with
    | true => simp [List.dropWhile_cons, ha, ih]
    | false => simp [List.dropWhile_cons, ha]

theorem tokenize_nil (f : Nat) : tokenize f ([] : List Char) = some [] := by
  cases f <;> rfl

/-- Every continuation fed into a `tokStep` call acts on a suffix no longer
than the remaining input, so two continuations agreeing on such inputs give
the same step result. -/
theorem tokStep_congr (tk tk' : List Char → Option (List Token)) (c : Char)
    (rest : List Char) (ts : List Token)
    (htk : ∀ x ts', x.length ≤ rest.length → tk x = some ts' → tk' x = some ts') :
    tokStep tk c rest = some ts → tokStep tk' c rest = some ts := by
  intro h
  unfold tokStep at h ⊢
  by_cases h1 : isJsonWs c = true
  · rw [if_pos h1] at h ⊢
    exact htk rest ts (le_refl _) h
  · rw [if_neg h1] at h ⊢
    by_cases h2 : c = '{'
    · rw [if_pos h2] at h ⊢
      obtain ⟨ts', hts', rfl⟩ := Option.map_eq_some'.mp h
      rw [htk _ _ (le_refl _) hts']
      rfl
    · rw [if_neg h2] at h ⊢
      by_cases h3 : c = '}'
      · rw [if_pos h3] at h ⊢
        obtain ⟨ts', hts', rfl⟩ := Option.map_eq_some'.mp h
        rw [htk _ _ (le_refl _) hts']
        rfl
      · rw [if_neg h3] at h ⊢
        by_cases h4 : c = '['
        · rw [if_pos h4] at h ⊢
          obtain ⟨ts', hts', rfl⟩ := Option.map_eq_some'.mp h
          rw [htk _ _ (le_refl _) hts']
          rfl
        · rw [if_neg h4] at h ⊢
          by_cases h5 : c = ']'
          · rw [if_pos h5] at h ⊢
            obtain ⟨ts', hts', rfl⟩ := Option.map_eq_some'.mp h
            rw [htk _ _ (le_refl _) hts']
            rfl
          · rw [if_neg h5] at h ⊢
            by_cases h6 : c = ','
            · rw [if_pos h6] at h ⊢
              obtain ⟨ts', hts', rfl⟩ := Option.map_eq_some'.mp h
              rw [htk _ _ (le_refl _) hts']
              rfl
            · rw [if_neg h6] at h ⊢
              by_cases h7 : c = ':'
              · rw [if_pos h7] at h ⊢
                obtain ⟨ts', hts', rfl⟩ := Option.map_eq_some'.mp h
                rw [htk _ _ (le_refl _) hts']
                rfl
              · rw [if_neg h7] at h ⊢
                by_cases h8 : c = '\"'
                · rw [if_pos h8] at h ⊢
                  cases hls : lexString rest with
                  | none =>
      try rw [hls] at h
      try rw [hdp] at h
      exact Option.noConfusion h
                  | some sr =>
                    obtain ⟨s, r⟩ := sr
                    try rw [hls] at h
                    have h2 : Option.map (fun x => Token.str (String.mk s) :: x) (tk r) = some ts := h
                    obtain ⟨ts', hts', rfl⟩ := Option.map_eq_some'.mp h2
                    show Option.map (fun x => Token.str (String.mk s) :: x) (tk' r)
                      = some (Token.str (String.mk s) :: ts')
                    rw [htk _ _ (lexString_le rest s r hls) hts']
                    rfl
                · rw [if_neg h8] at h ⊢
                  by_cases h9 : isNumStart c = true
                  · rw [if_pos h9] at h ⊢
                    by_cases hv : validNum (c :: rest.takeWhile isNumChar) = true
                    · rw [if_pos hv] at h ⊢
                      obtain ⟨ts', hts', rfl⟩ := Option.map_eq_some'.mp h
                      rw [htk _ _ (List.dropWhile_suffix _).length_le hts']
                      rfl
                    · rw [if_neg hv] at h
                      exact Option.noConfusion h
                  · rw [if_neg h9] at h ⊢
                    by_cases h10 : c = 't'
                    · rw [if_pos h10] at h ⊢
                      unfold expectLit at h ⊢
                      cases hdp : dropPre ['r', 'u', 'e'] rest with
                      | none =>
      try rw [hls] at h
      try rw [hdp] at h
      exact Option.noConfusion h
                      | some r =>
                        try rw [hdp] at h
                        have h2 : Option.map (fun x => Token.tru :: x) (tk r) = some ts := h
                        obtain ⟨ts', hts', rfl⟩ := Option.map_eq_some'.mp h2
                        show Option.map (fun x => Token.tru :: x) (tk' r) = some (Token.tru :: ts')
                        rw [htk _ _ (dropPre_le _ _ _ hdp) hts']
                        rfl
                    · rw [if_neg h10] at h ⊢
                      by_cases h11 : c = 'f'
                      · rw [if_pos h11] at h ⊢
                        unfold expectLit at h ⊢
                        cases hdp : dropPre ['a', 'l', 's', 'e'] rest with
                        | none =>
      try rw [hls] at h
      try rw [hdp] at h
      exact Option.noConfusion h
                        | some r =>
                          try rw [hdp] at h
                          have h2 : Option.map (fun x => Token.fls :: x) (tk r) = some ts := h
                          obtain ⟨ts', hts', rfl⟩ := Option.map_eq_some'.mp h2
                          show Option.map (fun x => Token.fls :: x) (tk' r) = some (Token.fls :: ts')
                          rw [htk _ _ (dropPre_le _ _ _ hdp) hts']
                          rfl
                      · rw [if_neg h11] at h ⊢
                        by_cases h12 : c = 'n'
                        · rw [if_pos h12] at h ⊢
                          unfold expectLit at h ⊢
                          cases hdp : dropPre ['u', 'l', 'l'] rest with
                          | none =>
      try rw [hls] at h
      try rw [hdp] at h
      exact Option.noConfusion h
                          | some r =>
                            try rw [hdp] at h
                            have h2 : Option.map (fun x => Token.nul :: x) (tk r) = some ts := h
                            obtain ⟨ts', hts', rfl⟩ := Option.map_eq_some'.mp h2
                            show Option.map (fun x => Token.nul :: x) (tk' r) = some (Token.nul :: ts')
                            rw [htk _ _ (dropPre_le _ _ _ hdp) hts']
                            rfl
                        · rw [if_neg h12] at h ⊢
                          exact Option.noConfusion h

/-- Success of the tokenizer transfers to any fuel at least the input
length. -/
theorem tokenize_adequate : ∀ f l ts, tokenize f l = some ts →
    ∀ f', l.length ≤ f' → tokenize f' l = some ts := by
  intro f
  induction f with
  | zero =>
    intro l ts h f' _
    cases l with
    | nil => rw [tokenize_nil] at h ⊢; exact h
    | cons c rest => exact Option.noConfusion h
  | succ g ih =>
    intro l ts h f' hle
    cases l with
    | nil => rw [tokenize_nil] at h ⊢; exact h
    | cons c rest =>
      cases f' with
      | zero => simp at hle
      | succ g' =>
        rw [tokenize_succ_cons] at h ⊢
        refine tokStep_congr _ _ c rest ts ?_ h
        intro x ts' hx hsome
        refine ih x ts' hsome g' ?_
        simp only [List.length_cons] at hle
        omega


/-! ### Surrounding whitespace is invisible to the strict parser -/

theorem head_pyws {w : List Char} (hw : ∀ a ∈ w, isPyWs a = true) :
    ∀ c, w.head? = some c → isPyWs c = true := by
  intro c hc
  cases w with
  | nil => exact Option.noConfusion hc
  | cons a w2 =>
    simp only [List.head?_cons, Option.some.injEq] at hc
    subst hc
    exact hw a (by simp)

theorem lexString_ws_none : ∀ w, (∀ c ∈ w, isPyWs c = true) → lexString w = none := by
  intro w
  induction w with
  | nil => intro _; rfl
  | cons c rest ih =>
    intro hw
    have hc := hw c (by simp)
    unfold lexString
    rw [if_neg (pyWs_ne_quote hc), if_neg (pyWs_ne_backslash hc)]
    by_cases h32 : c.toNat < 32
    · rw [if_pos h32]
    · rw [if_neg h32, ih (fun x hx => hw x (by simp [hx]))]
      rfl

theorem lexString_bs_ws (w : List Char) (hw : ∀ a ∈ w, isPyWs a = true) :
    lexString ('\\' :: w) = none := by
  cases w with
  | nil => rfl
  | cons e w2 =>
    have he := hw e (by simp)
    unfold lexString
    rw [if_neg (show ('\\' : Char) ≠ '"' from by decide)]
    simp only [reduceIte]
    rw [if_neg (pyWs_ne_u he), pyWs_no_escape he]

/-- Appending an all-whitespace suffix does not change how a string literal
is lexed: the closing quote, every escape and every hex digit of a `\u`
escape lie before the suffix, which is returned untouched as part of the
remainder. -/
theorem lexString_seam (w : List Char) (hw : ∀ a ∈ w, isPyWs a = true) :
    ∀ n u s r, u.length ≤ n → lexString (u ++ w) = some (s, r) →
      ∃ r0, lexString u = some (s, r0) ∧ r = r0 ++ w := by
  intro n
  induction n with
  | zero =>
    intro u s r hlen h
    have hu : u = [] := List.length_eq_zero.mp (Nat.le_zero.mp hlen)
    subst hu
    rw [List.nil_append, lexString_ws_none w hw] at h
    exact Option.noConfusion h
  | succ n ih =>
    intro u s r hlen h
    cases u with
    | nil =>
      rw [List.nil_append, lexString_ws_none w hw] at h
      exact Option.noConfusion h
    | cons c u2 =>
      simp only [List.cons_append, List.nil_append] at h
      by_cases hq : c = '"'
      · subst hq
        unfold lexString at h
        rw [if_pos (show ('"' : Char) = '"' from rfl)] at h
        simp only [Option.some.injEq, Prod.mk.injEq] at h
        obtain ⟨hs, hr⟩ := h
        refine ⟨u2, ?_, hr.symm⟩
        unfold lexString
        rw [if_pos (show ('"' : Char) = '"' from rfl), ← hs]
      · by_cases hb : c = '\\'
        · subst hb
          cases u2 with
          | nil =>
            rw [List.nil_append] at h
            rw [lexString_bs_ws w hw] at h
            exact Option.noConfusion h
          | cons e u3 =>
            simp only [List.cons_append, List.nil_append] at h
            by_cases he : e = 'u'
            · subst he
              cases u3 with
              | cons x1 u31 =>
                cases u31 with
                | cons x2 u32 =>
                  cases u32 with
                  | cons x3 u33 =>
                    cases u33 with
                    | cons x4 u4 =>
                      simp only [List.cons_append, List.nil_append] at h
                      unfold lexString at h
                      rw [if_neg (show ('\\' : Char) ≠ '"' from by decide)] at h
                      simp only [reduceIte] at h
                      split at h
                      · rename_i hg
                        rw [consResult_eq_some] at h
                        obtain ⟨s0, h0, hs⟩ := h
                        have hlen4 : u4.length ≤ n := by
                          simp only [List.length_cons] at hlen; omega
                        obtain ⟨r0, hr0, hr⟩ := ih u4 s0 r hlen4 h0
                        refine ⟨r0, ?_, hr⟩
                        unfold lexString
                        rw [if_neg (show ('\\' : Char) ≠ '"' from by decide)]
                        simp only [reduceIte]
                        rw [if_pos hg, hr0, hs]
                        rfl
                      · exact Option.noConfusion h
                    | nil =>
                      cases w with
                      | nil => exact Option.noConfusion h
                      | cons w1 w5 =>
                        simp only [List.cons_append, List.nil_append] at h
                        unfold lexString at h
                        rw [if_neg (show ('\\' : Char) ≠ '"' from by decide)] at h
                        simp only [reduceIte] at h
                        split at h
                        · rename_i hg
                          rw [pyWs_not_hex (hw w1 (by simp))] at hg
                          simp at hg
                        · exact Option.noConfusion h
                  | nil =>
                    cases w with
                    | nil => exact Option.noConfusion h
                    | cons w1 w5 =>
                      cases w5 with
                      | nil => exact Option.noConfusion h
                      | cons w2 w6 =>
                        simp only [List.cons_append, List.nil_append] at h
                        unfold lexString at h
                        rw [if_neg (show ('\\' : Char) ≠ '"' from by decide)] at h
                        simp only [reduceIte] at h
                        split at h
                        · rename_i hg
                          rw [pyWs_not_hex (hw w1 (by simp))] at hg
                          simp at hg
                        · exact Option.noConfusion h
                | nil =>
                  cases w with
                  | nil => exact Option.noConfusion h
                  | cons w1 w5 =>
                    cases w5 with
                    | nil => exact Option.noConfusion h
                    | cons w2 w6 =>
                      cases w6 with
                      | nil => exact Option.noConfusion h
                      | cons w3 w7 =>
                        simp only [List.cons_append, List.nil_append] at h
                        unfold lexString at h
                        rw [if_neg (show ('\\' : Char) ≠ '"' from by decide)] at h
                        simp only [reduceIte] at h
                        split at h
                        · rename_i hg
                          rw [pyWs_not_hex (hw w1 (by simp))] at hg
                          simp at hg
                        · exact Option.noConfusion h
              | nil =>
                cases w with
                | nil => exact Option.noConfusion h
                | cons w1 w5 =>
                  cases w5 with
                  | nil => exact Option.noConfusion h
                  | cons w2 w6 =>
                    cases w6 with
                    | nil => exact Option.noConfusion h
                    | cons w3 w7 =>
                      cases w7 with
                      | nil => exact Option.noConfusion h
                      | cons w4 w8 =>
                        simp only [List.cons_append, List.nil_append] at h
                        unfold lexString at h
                        rw [if_neg (show ('\\' : Char) ≠ '"' from by decide)] at h
                        simp only [reduceIte] at h
                        split at h
                        · rename_i hg
                          rw [pyWs_not_hex (hw w1 (by simp))] at hg
                          simp at hg
                        · exact Option.noConfusion h
            · unfold lexString at h
              rw [if_neg (show ('\\' : Char) ≠ '"' from by decide)] at h
              simp only [reduceIte] at h
              rw [if_neg he] at h
              cases hse : simpleEscape e with
              | none =>
                rw [hse] at h
                exact Option.noConfusion h
              | some c2 =>
                rw [hse] at h
                have h2 : consResult c2 (lexString (u3 ++ w)) = some (s, r) := h
                rw [consResult_eq_some] at h2
                obtain ⟨s0, h0, hs⟩ := h2
                have hlen3 : u3.length ≤ n := by
                  simp only [List.length_cons] at hlen; omega
                obtain ⟨r0, hr0, hr⟩ := ih u3 s0 r hlen3 h0
                refine ⟨r0, ?_, hr⟩
                unfold lexString
                rw [if_neg (show ('\\' : Char) ≠ '"' from by decide)]
                simp only [reduceIte]
                rw [if_neg he, hse]
                show consResult c2 (lexString u3) = some (s, r0)
                rw [hr0, hs]
                rfl
        · unfold lexString at h
          rw [if_neg hq, if_neg hb] at h
          by_cases h32 : c.toNat < 32
          · rw [if_pos h32] at h
            exact Option.noConfusion h
          · rw [if_neg h32, consResult_eq_some] at h
            obtain ⟨s0, h0, hs⟩ := h
            have hlen2 : u2.length ≤ n := by
              simp only [List.length_cons] at hlen; omega
            obtain ⟨r0, hr0, hr⟩ := ih u2 s0 r hlen2 h0
            refine ⟨r0, ?_, hr⟩
            unfold lexString
            rw [if_neg hq, if_neg hb, if_neg h32, hr0, hs]
            rfl


theorem dropPre_seam : ∀ (cs u w r : List Char), (∀ a ∈ w, isPyWs a = true) →
    (∀ b ∈ cs, isPyWs b = false) → dropPre cs (u ++ w) = some r →
    ∃ r0, dropPre cs u = some r0 ∧ r = r0 ++ w := by
  intro cs
  induction cs with
  | nil =>
    intro u w r _ _ h
    simp only [dropPre, Option.some.injEq] at h
    exact ⟨u, rfl, h.symm⟩
  | cons c cs2 ih =>
    intro u w r hw hcs h
    cases u with
    | nil =>
      cases w with
      | nil => exact Option.noConfusion h
      | cons a w2 =>
        have ha : isPyWs a = true := hw a (by simp)
        have hc : isPyWs c = false := hcs c (by simp)
        have hne : a ≠ c := by
          intro hac
          rw [hac, hc] at ha
          exact Bool.noConfusion ha
        rw [List.nil_append] at h
        simp only [dropPre] at h
        rw [if_neg hne] at h
        exact Option.noConfusion h
    | cons x u2 =>
      simp only [List.cons_append, dropPre] at h
      by_cases hx : x = c
      · rw [if_pos hx] at h
        obtain ⟨r0, h0, hr⟩ := ih u2 w r hw (fun b hb => hcs b (by simp [hb])) h
        refine ⟨r0, ?_, hr⟩
        simp only [dropPre]
        rw [if_pos hx, h0]
      · rw [if_neg hx] at h
        exact Option.noConfusion h

theorem tokenize_ws_only : ∀ f w ts, (∀ a ∈ w, isPyWs a = true) →
    tokenize f w = some ts → ts = [] := by
  intro f
  induction f with
  | zero =>
    intro w ts hw h
    cases w with
    | nil =>
      rw [tokenize_nil] at h
      injection h with h2
      exact h2.symm
    | cons c w2 => exact Option.noConfusion h
  | succ g ih =>
    intro w ts hw h
    cases w with
    | nil =>
      rw [tokenize_nil] at h
      injection h with h2
      exact h2.symm
    | cons c w2 =>
      have hc := hw c (by simp)
      by_cases hj : isJsonWs c = true
      · rw [tokenize_ws_cons hj] at h
        exact ih w2 ts (fun a ha => hw a (by simp [ha])) h
      · have hj2 : isJsonWs c = false := by revert hj; cases isJsonWs c <;> simp
        rw [tokenize_pyws_head hc hj2] at h
        exact Option.noConfusion h

/-- One tokenizer step ignores an all-whitespace suffix of its input,
provided the continuation does. -/
theorem tokStep_seam (tk tk' : List Char → Option (List Token)) (c : Char)
    (u w : List Char) (ts : List Token)
    (hw : ∀ a ∈ w, isPyWs a = true)
    (htk : ∀ x ts2, tk (x ++ w) = some ts2 → tk' x = some ts2) :
    tokStep tk c (u ++ w) = some ts → tokStep tk' c u = some ts := by
  intro h
  unfold tokStep at h ⊢
  by_cases h1 : isJsonWs c = true
  · rw [if_pos h1] at h ⊢
    exact htk u ts h
  · rw [if_neg h1] at h ⊢
    by_cases h2 : c = '\x7b'
    · rw [if_pos h2] at h ⊢
      obtain ⟨ts2, hts2, rfl⟩ := Option.map_eq_some'.mp h
      rw [htk _ _ hts2]
      rfl
    · rw [if_neg h2] at h ⊢
      by_cases h3 : c = '\x7d'
      · rw [if_pos h3] at h ⊢
        obtain ⟨ts2, hts2, rfl⟩ := Option.map_eq_some'.mp h
        rw [htk _ _ hts2]
        rfl
      · rw [if_neg h3] at h ⊢
        by_cases h4 : c = '['
        · rw [if_pos h4] at h ⊢
          obtain ⟨ts2, hts2, rfl⟩ := Option.map_eq_some'.mp h
          rw [htk _ _ hts2]
          rfl
        · rw [if_neg h4] at h ⊢
          by_cases h5 : c = ']'
          · rw [if_pos h5] at h ⊢
            obtain ⟨ts2, hts2, rfl⟩ := Option.map_eq_some'.mp h
            rw [htk _ _ hts2]
            rfl
          · rw [if_neg h5] at h ⊢
            by_cases h6 : c = ','
            · rw [if_pos h6] at h ⊢
              obtain ⟨ts2, hts2, rfl⟩ := Option.map_eq_some'.mp h
              rw [htk _ _ hts2]
              rfl
            · rw [if_neg h6] at h ⊢
              by_cases h7 : c = ':'
              · rw [if_pos h7] at h ⊢
                obtain ⟨ts2, hts2, rfl⟩ := Option.map_eq_some'.mp h
                rw [htk _ _ hts2]
                rfl
              · rw [if_neg h7] at h ⊢
                by_cases h8 : c = '"'
                · rw [if_pos h8] at h ⊢
                  cases hls : lexString (u ++ w) with
                  | none =>
                    rw [hls] at h
                    exact Option.noConfusion h
                  | some sr =>
                    obtain ⟨s, r⟩ := sr
                    rw [hls] at h
                    obtain ⟨r0, hr0, hreq⟩ := lexString_seam w hw u.length u s r (le_refl _) hls
                    subst hreq
                    rw [hr0]
                    have h2m : Option.map (fun x => Token.str (String.mk s) :: x) (tk (r0 ++ w)) = some ts := h
                    obtain ⟨ts2, hts2, rfl⟩ := Option.map_eq_some'.mp h2m
                    show Option.map (fun x => Token.str (String.mk s) :: x) (tk' r0)
                      = some (Token.str (String.mk s) :: ts2)
                    rw [htk _ _ hts2]
                    rfl
                · rw [if_neg h8] at h ⊢
                  by_cases h9 : isNumStart c = true
                  · rw [if_pos h9] at h ⊢
                    have hhead : ∀ a, w.head? = some a → isNumChar a = false :=
                      fun a ha => pyWs_not_numChar (head_pyws hw a ha)
                    rw [takeWhile_append_stop u w hhead, dropWhile_append_stop u w hhead] at h
                    by_cases hv : validNum (c :: u.takeWhile isNumChar) = true
                    · rw [if_pos hv] at h ⊢
                      obtain ⟨ts2, hts2, rfl⟩ := Option.map_eq_some'.mp h
                      rw [htk _ _ hts2]
                      rfl
                    · rw [if_neg hv] at h
                      exact Option.noConfusion h
                  · rw [if_neg h9] at h ⊢
                    by_cases h10 : c = 't'
                    · rw [if_pos h10] at h ⊢
                      unfold expectLit at h ⊢
                      cases hdp : dropPre ['r', 'u', 'e'] (u ++ w) with
                      | none =>
                        rw [hdp] at h
                        exact Option.noConfusion h
                      | some r =>
                        rw [hdp] at h
                        obtain ⟨r0, hdp0, hreq⟩ := dropPre_seam ['r', 'u', 'e'] u w r hw (by decide) hdp
                        subst hreq
                        rw [hdp0]
                        have h2m : Option.map (fun x => Token.tru :: x) (tk (r0 ++ w)) = some ts := h
                        obtain ⟨ts2, hts2, rfl⟩ := Option.map_eq_some'.mp h2m
                        show Option.map (fun x => Token.tru :: x) (tk' r0) = some (Token.tru :: ts2)
                        rw [htk _ _ hts2]
                        rfl
                    · rw [if_neg h10] at h ⊢
                      by_cases h11 : c = 'f'
                      · rw [if_pos h11] at h ⊢
                        unfold expectLit at h ⊢
                        cases hdp : dropPre ['a', 'l', 's', 'e'] (u ++ w) with
                        | none =>
                          rw [hdp] at h
                          exact Option.noConfusion h
                        | some r =>
                          rw [hdp] at h
                          obtain ⟨r0, hdp0, hreq⟩ := dropPre_seam ['a', 'l', 's', 'e'] u w r hw (by decide) hdp
                          subst hreq
                          rw [hdp0]
                          have h2m : Option.map (fun x => Token.fls :: x) (tk (r0 ++ w)) = some ts := h
                          obtain ⟨ts2, hts2, rfl⟩ := Option.map_eq_some'.mp h2m
                          show Option.map (fun x => Token.fls :: x) (tk' r0) = some (Token.fls :: ts2)
                          rw [htk _ _ hts2]
                          rfl
                      · rw [if_neg h11] at h ⊢
                        by_cases h12 : c = 'n'
                        · rw [if_pos h12] at h ⊢
                          unfold expectLit at h ⊢
                          cases hdp : dropPre ['u', 'l', 'l'] (u ++ w) with
                          | none =>
                            rw [hdp] at h
                            exact Option.noConfusion h
                          | some r =>
                            rw [hdp] at h
                            obtain ⟨r0, hdp0, hreq⟩ := dropPre_seam ['u', 'l', 'l'] u w r hw (by decide) hdp
                            subst hreq
                            rw [hdp0]
                            have h2m : Option.map (fun x => Token.nul :: x) (tk (r0 ++ w)) = some ts := h
                            obtain ⟨ts2, hts2, rfl⟩ := Option.map_eq_some'.mp h2m
                            show Option.map (fun x => Token.nul :: x) (tk' r0) = some (Token.nul :: ts2)
                            rw [htk _ _ hts2]
                            rfl
                        · rw [if_neg h12] at h ⊢
                          exact Option.noConfusion h

/-- The tokenizer ignores an all-whitespace suffix. -/
theorem tokenize_rstrip (w : List Char) (hw : ∀ a ∈ w, isPyWs a = true) :
    ∀ f u ts, tokenize f (u ++ w) = some ts → tokenize f u = some ts := by
  intro f
  induction f with
  | zero =>
    intro u ts h
    cases u with
    | nil =>
      rw [List.nil_append] at h
      have hts : ts = [] := by
        cases w with
        | nil =>
          rw [tokenize_nil] at h
          injection h with h2
          exact h2.symm
        | cons a w2 => exact Option.noConfusion h
      subst hts
      exact tokenize_nil 0
    | cons c u2 =>
      rw [List.cons_append] at h
      exact Option.noConfusion h
  | succ g ih =>
    intro u ts h
    cases u with
    | nil =>
      rw [List.nil_append] at h
      have hts := tokenize_ws_only (g + 1) w ts hw h
      subst hts
      exact tokenize_nil _
    | cons c u2 =>
      rw [List.cons_append] at h
      rw [tokenize_succ_cons] at h ⊢
      exact tokStep_seam (tokenize g) (tokenize g) c u2 w ts hw
        (fun x ts2 hx => ih x ts2 hx) h

/-- The tokenizer ignores an all-whitespace prefix (at some smaller fuel). -/
theorem tokenize_lstrip : ∀ (v : List Char), (∀ a ∈ v, isPyWs a = true) →
    ∀ f t ts, tokenize f (v ++ t) = some ts → ∃ g, tokenize g t = some ts := by
  intro v
  induction v with
  | nil =>
    intro _ f t ts h
    rw [List.nil_append] at h
    exact ⟨f, h⟩
  | cons a v2 ih =>
    intro hv f t ts h
    have ha := hv a (by simp)
    cases f with
    | zero =>
      rw [List.cons_append] at h
      exact Option.noConfusion h
    | succ g =>
      rw [List.cons_append] at h
      by_cases hj : isJsonWs a = true
      · rw [tokenize_ws_cons hj] at h
        exact ih (fun x hx => hv x (by simp [hx])) g t ts h
      · have hj2 : isJsonWs a = false := by revert hj; cases isJsonWs a <;> simp
        rw [tokenize_pyws_head ha hj2] at h
        exact Option.noConfusion h

theorem rstrip_decomp (l : List Char) :
    ∃ w, l = rstripPy l ++ w ∧ ∀ a ∈ w, isPyWs a = true := by
  refine ⟨(l.reverse.takeWhile isPyWs).reverse, ?_, ?_⟩
  · show l = rstripPy l ++ (l.reverse.takeWhile isPyWs).reverse
    unfold rstripPy
    rw [← List.reverse_append, List.takeWhile_append_dropWhile, List.reverse_reverse]
  · intro a ha
    rw [List.mem_reverse] at ha
    exact List.mem_takeWhile_imp ha

theorem lstrip_decomp (l : List Char) :
    ∃ v, l = v ++ lstripPy l ∧ ∀ a ∈ v, isPyWs a = true := by
  refine ⟨l.takeWhile isPyWs, ?_, ?_⟩
  · unfold lstripPy
    rw [List.takeWhile_append_dropWhile]
  · intro a ha
    exact List.mem_takeWhile_imp ha

/-- Python-stripping the input does not change a successful tokenization. -/
theorem tokenizeA_pystrip (s : List Char) (ts : List Token)
    (h : tokenizeA s = some ts) : tokenizeA (pystrip s) = some ts := by
  obtain ⟨w2, hdec, hw2⟩ := rstrip_decomp s
  have h1 : tokenize s.length (rstripPy s ++ w2) = some ts := by rw [← hdec]; exact h
  have h2 : tokenize s.length (rstripPy s) = some ts := tokenize_rstrip w2 hw2 _ _ _ h1
  obtain ⟨v, hdec2, hv⟩ := lstrip_decomp (rstripPy s)
  have h3 : tokenize s.length (v ++ lstripPy (rstripPy s)) = some ts := by
    rw [← hdec2]; exact h2
  obtain ⟨g, h4⟩ := tokenize_lstrip v hv s.length _ ts h3
  exact tokenize_adequate g _ ts h4 _ (le_refl _)

/-- `json.loads` accepts the Python-stripped input with the same result. -/
theorem parse_pystrip (s : List Char) (v : Json) (h : parse s = some v) :
    parse (pystrip s) = some v := by
  unfold parse at h ⊢
  cases hta : tokenizeA s with
  | none =>
    rw [hta] at h
    exact Option.noConfusion h
  | some ts =>
    rw [hta] at h
    rw [tokenizeA_pystrip s ts hta]
    exact h


/-! ### Fence stripping and the trailing-comma substitution on strict input -/

theorem tokenize_backtick (f : Nat) (l : List Char) :
    tokenize f ('`' :: l) = none := by
  cases f with
  | zero => rfl
  | succ g => rfl

theorem parse_backtick (t : List Char) : parse ('`' :: t) = none := by
  have hta : tokenizeA ('`' :: t) = none := tokenize_backtick _ _
  unfold parse
  rw [hta]

theorem fenceStrip_ne_backtick (c : Char) (t : List Char) (hc : c ≠ '`') :
    fenceStrip (c :: t) = c :: t := by
  unfold fenceStrip
  split
  · rename_i x heq
    injection heq with h1 _
    exact absurd h1 hc
  · rfl

theorem hasCommaPat_append_right (x y : List Char) (h : hasCommaPat y = true) :
    hasCommaPat (x ++ y) = true := by
  induction x with
  | nil => exact h
  | cons c x2 ih =>
    simp only [List.cons_append]
    unfold hasCommaPat
    rw [ih, Bool.or_true]

theorem hasCommaPat_append_left (y z : List Char) (h : hasCommaPat y = true) :
    hasCommaPat (y ++ z) = true := by
  induction y with
  | nil => exact absurd h (by simp [hasCommaPat])
  | cons c y2 ih =>
    unfold hasCommaPat at h
    simp only [Bool.or_eq_true] at h
    simp only [List.cons_append]
    unfold hasCommaPat
    simp only [Bool.or_eq_true]
    rcases h with h | h
    · left
      simp only [Bool.and_eq_true] at h ⊢
      obtain ⟨hc, hm⟩ := h
      refine ⟨hc, ?_⟩
      cases hdw : y2.dropWhile isPyWs with
      | nil =>
        rw [hdw] at hm
        exact Bool.noConfusion hm
      | cons b u =>
        rw [hdw] at hm
        have hm2 : isCloser b = true := hm
        rw [List.dropWhile_append, hdw]
        simp only [List.isEmpty_cons, Bool.false_eq_true, if_false, List.cons_append]
        exact hm2
    · right
      exact ih h

theorem removeTrailingCommas_id : ∀ l, hasCommaPat l = false →
    removeTrailingCommas l = l := by
  intro l
  induction l with
  | nil => intro _; rfl
  | cons c rest ih =>
    intro h
    unfold hasCommaPat at h
    simp only [Bool.or_eq_false_iff] at h
    obtain ⟨h1, h2⟩ := h
    unfold removeTrailingCommas
    by_cases hc : c = ','
    · rw [if_pos hc]
      subst hc
      rw [show decide ((',' : Char) = ',') = true from by decide, Bool.true_and] at h1
      cases hdw : rest.dropWhile isPyWs with
      | nil =>
        show ',' :: removeTrailingCommas rest = ',' :: rest
        rw [ih h2]
      | cons b u =>
        rw [hdw] at h1
        have hb : isCloser b = false := h1
        show (if isCloser b then removeTrailingCommas rest
              else ',' :: removeTrailingCommas rest) = ',' :: rest
        rw [if_neg (by simp [hb]), ih h2]
    · rw [if_neg hc, ih h2]

theorem hasCommaPat_pystrip (s : List Char) (h : hasCommaPat s = false) :
    hasCommaPat (pystrip s) = false := by
  cases hcps : hasCommaPat (pystrip s) with
  | false => rfl
  | true =>
    obtain ⟨w2, hdec, _⟩ := rstrip_decomp s
    obtain ⟨v1, hdec2, _⟩ := lstrip_decomp (rstripPy s)
    have hcps2 : hasCommaPat (lstripPy (rstripPy s)) = true := hcps
    have hr1 : hasCommaPat (v1 ++ lstripPy (rstripPy s)) = true :=
      hasCommaPat_append_right v1 _ hcps2
    rw [← hdec2] at hr1
    have hr2 : hasCommaPat (rstripPy s ++ w2) = true :=
      hasCommaPat_append_left _ _ hr1
    rw [← hdec] at hr2
    rw [h] at hr2
    exact Bool.noConfusion hr2

/-- On a strict-JSON input without the comma-closer pattern, the whole
text-preprocessing pipeline reduces to Python `strip()`. -/
theorem preprocess_of_strict (s : List Char) (v : Json)
    (hp : parse s = some v) (hcp : hasCommaPat s = false) :
    preprocess s = pystrip s := by
  have hps : parse (pystrip s) = some v := parse_pystrip s v hp
  have hfence : fenceStrip (pystrip s) = pystrip s := by
    cases ht : pystrip s with
    | nil => rfl
    | cons c t2 =>
      by_cases hc : c = '`'
      · subst hc
        rw [ht, parse_backtick] at hps
        exact Option.noConfusion hps
      · exact fenceStrip_ne_backtick c t2 hc
  unfold preprocess
  rw [hfence, removeTrailingCommas_id _ (hasCommaPat_pystrip s hcp)]


/-- C3 counterexample.  The text `c3bad` is strict JSON encoding an object
with exactly the three keys `pillar2`, `pillar3`, `pillar4`, yet recovery
does not return its strict parse: the trailing-comma substitution deletes
the comma of the `,\x7d` sequence inside the `pillar2` string literal
before parsing, so the recovered object differs from the strict parse. -/
theorem recovery_not_idempotent_counterexample :
    parse c3bad = some (Json.obj c3badFields)
    ∧ c3badFields.map Prod.fst = ["pillar2", "pillar3", "pillar4"]
    ∧ recover jrepairFail (RawContent.text c3bad)
        ≠ Except.ok (Json.obj c3badFields) := by
  refine ⟨rfl, rfl, ?_⟩
  intro hcontra
  have heval : recover jrepairFail (RawContent.text c3bad)
      = Except.ok (Json.obj [("pillar2", Json.str "a\x7d"),
          ("pillar3", Json.num ['1']), ("pillar4", Json.num ['2'])]) := rfl
  rw [heval] at hcontra
  simp [c3badFields] at hcontra

/-- C3 amended.  For every input string that is already strict JSON encoding
an object containing the keys `pillar2`, `pillar3` and `pillar4`, and that
contains no comma followed by optional whitespace and a closing brace or
bracket (the pattern of the trailing-comma substitution), recovery succeeds
and returns the strict parse of the string unchanged, for every repair
function. -/
theorem recovery_comma_free_strict (jr : List Char → Except String Json)
    (s : List Char) (fields : List (String × Json))
    (hp : parse s = some (Json.obj fields))
    (h2 : hasKey fields "pillar2" = true) (h3 : hasKey fields "pillar3" = true)
    (h4 : hasKey fields "pillar4" = true)
    (hcp : hasCommaPat s = false) :
    recover jr (RawContent.text s) = .ok (Json.obj fields) := by
  have hpre : preprocess s = pystrip s := preprocess_of_strict s _ hp hcp
  have hps : parse (pystrip s) = some (Json.obj fields) := parse_pystrip s _ hp
  have hstage : parseStages jr (pystrip s) = .ok (Json.obj fields) := by
    unfold parseStages
    rw [hps]
  simp only [recover]
  rw [hpre, hstage]
  show checkPillars (Json.obj fields) = .ok (Json.obj fields)
  simp [checkPillars, h2, h3, h4]

/-- C3 amended, witness: a concrete comma-pattern-free strict JSON pillars
object with surrounding whitespace is recovered unchanged. -/
theorem recovery_comma_free_strict_witness :
    parse c3ws = some (Json.obj c3wsFields) ∧ hasCommaPat c3ws = false ∧
    recover jrepairFail (RawContent.text c3ws) = Except.ok (Json.obj c3wsFields) :=
  ⟨rfl, rfl, recovery_comma_free_strict jrepairFail c3ws c3wsFields rfl rfl rfl rfl rfl⟩

end Pillar1
